import Mathlib

/-!
Verification of the Soda-Collibra reconciliation engine
(`soda/soda-collibra-integration-configuration`): a shallow embedding of the
naming resolver, deletion sync, threshold normalizer, diagnostic attributes,
pagination, ownership sync, the two REST clients' error handling, and the
domain-mapping parser, with theorems about the behaviours the documentation
ascribes to them.

Conventions of the embedding:
* Python strings are Lean `String`s; scanning utilities work on `List Char`
  (Python string positions are code-point indices, as are `List Char` indices).
* Python `None`/empty-string truthiness is modelled explicitly
  (`pyTruthyOptStr`).
* JSON-ish dynamic values (check diagnostics, parsed configuration) are the
  inductive `JVal`; Python `dict`s become ordered association lists, matching
  Python 3.7+ insertion-ordered dicts.
* Fallible code returns `Option`/`Except`; HTTP backends are modelled as the
  list of responses the server would produce for the successive requests, or
  as request-to-response functions where the code retries with modified
  requests.
* Numeric threshold arithmetic uses exact decimals (`PyFloat`: integer
  mantissa over a power-of-ten scale); the source computes with IEEE
  doubles, which agree with the exact decimal on every comparison and
  formatting step appearing in the theorems below (all their values fit
  well within double precision).
-/

namespace SodaCollibra

/-! ## Python string primitives -/

/-- Python `str` truthiness for an optional string: `None` and `""` are falsy. -/
def pyTruthyOptStr : Option String → Bool
  | none => false
  | some s => s ≠ ""

/-- Python `str.upper()` (ASCII fragment — the data this system feeds it). -/
def pyUpper (s : String) : String := String.mk (s.toList.map Char.toUpper)

/-- Python `str.lower()` (ASCII fragment). -/
def pyLower (s : String) : String := String.mk (s.toList.map Char.toLower)

/-- Python whitespace for `str.strip()` (ASCII fragment). -/
def isStripWs (c : Char) : Bool :=
  c = ' ' ∨ c = '\t' ∨ c = '\n' ∨ c = '\r' ∨ c = Char.ofNat 11 ∨ c = Char.ofNat 12

/-- Python `str.strip()`. -/
def pyStrip (s : String) : String :=
  String.mk (((s.toList.dropWhile isStripWs).reverse.dropWhile isStripWs).reverse)

/-- Python `str.split(sep)` for a one-character separator. -/
def pySplitCharGo (sep : Char) : List Char → List Char → List String
  | [], cur => [String.mk cur.reverse]
  | c :: rest, cur =>
    if c = sep then String.mk cur.reverse :: pySplitCharGo sep rest []
    else pySplitCharGo sep rest (c :: cur)

/-- Python `s.split(sep)` (one-character separator). -/
def pySplitChar (s : String) (sep : Char) : List String :=
  pySplitCharGo sep s.toList []

/-- One normalization step of `generate_asset_name`:
`segment.upper().replace(' ', '_').replace('-', '_')`. -/
def pyNormalizeSegment (s : String) : String :=
  String.mk (((pyUpper s).toList.map (fun c => if c = ' ' then '_' else c)).map
    (fun c => if c = '-' then '_' else c))

/-- `List Char` version of Python `pat in hay` (substring containment). -/
def charsContainsFrom : List Char → List Char → Bool
  | hay, pat =>
    if pat.isPrefixOf hay then true
    else match hay with
      | [] => false
      | _ :: rest => charsContainsFrom rest pat

/-- Python `pat in s` for strings. -/
def pyIn (pat s : String) : Bool :=
  charsContainsFrom s.toList pat.toList

/-- Python `s.find(pat)`: index of the first occurrence, `none` for `-1`. -/
def charsFindPos : List Char → List Char → Option Nat
  | hay, pat =>
    if pat.isPrefixOf hay then some 0
    else match hay with
      | [] => none
      | _ :: rest => (charsFindPos rest pat).map (· + 1)

/-- Python `s.find(pat)` for strings. -/
def pyFind (s pat : String) : Option Nat :=
  charsFindPos s.toList pat.toList

/-! ## Identity & naming resolver (`utils.generate_asset_name`) -/

/-- The arguments of `generate_asset_name`, plus the ambient
`SNOWFLAKE_DATABASE` environment variable it falls back to. -/
structure GenNameArgs where
  check_name : String
  dataset_name : String
  database : Option String
  schema : Option String
  column : Option String
  envDatabase : Option String
  deriving Repr, DecidableEq

/-- The base (pre-disambiguation) name built by `generate_asset_name`:
`"{DATABASE}-{SCHEMA}-{TABLE}[-{COLUMN}] {checkName}"` with each segment
upper-cased and space/hyphen normalized. -/
def baseAssetName (a : GenNameArgs) : String :=
  let database :=
    if pyTruthyOptStr a.database then a.database.getD ""
    else a.envDatabase.getD "DATA PLATFORM XYZ"
  let databaseN := pyNormalizeSegment database
  let schemaN :=
    if pyTruthyOptStr a.schema then pyNormalizeSegment (a.schema.getD "")
    else "UNKNOWN"
  let tableN := pyNormalizeSegment a.dataset_name
  let parts :=
    if pyTruthyOptStr a.column then
      [databaseN, schemaN, tableN, pyNormalizeSegment (a.column.getD "")]
    else [databaseN, schemaN, tableN]
  String.intercalate "-" parts ++ " " ++ a.check_name

/-- The collision loop of `generate_asset_name`:
`while asset_name in seen_names: asset_name = f"{base_name} ({counter})"`.
Fuel bounds the loop; `seen.length + 1` candidates always suffice because the
candidate names are pairwise distinct. -/
def disambiguateGo (base : String) (seen : List String) :
    Nat → String → Nat → String
  | 0, name, _ => name
  | fuel + 1, name, counter =>
    if name ∈ seen then
      disambiguateGo base seen fuel (base ++ " (" ++ toString counter ++ ")")
        (counter + 1)
    else name

/-- `generate_asset_name`: returns the chosen name and the updated
`seen_names` set (the source mutates the set in place). -/
def generate_asset_name (a : GenNameArgs) (seen : List String) :
    String × List String :=
  let base := baseAssetName a
  let name := disambiguateGo base seen (seen.length + 1) base 1
  (name, seen ++ [name])

/-! ## `_extract_database_and_schema` -/

/-- The dataset fields `_extract_database_and_schema` and deletion sync read. -/
structure DatasetLite where
  name : String
  qualifiedName : Option String
  datasourceName : Option String
  deriving Repr, DecidableEq

/-- `SodaCollibraIntegration._extract_database_and_schema`: database from the
`SNOWFLAKE_DATABASE` environment variable; schema from the second dot-segment
of `qualifiedName`, else the last underscore-segment of the datasource name,
else `"UNKNOWN"`. -/
def extractDatabaseAndSchema (envDatabase : Option String)
    (ds : DatasetLite) : String × String :=
  let database := envDatabase.getD "DATA PLATFORM XYZ"
  let schemaFromQn : Option String :=
    if pyTruthyOptStr ds.qualifiedName then
      let parts := pySplitChar (ds.qualifiedName.getD "") '.'
      if 2 ≤ parts.length then some (pyUpper (parts.getD 1 "")) else none
    else none
  let schemaStep2 : Option String :=
    if ¬ pyTruthyOptStr schemaFromQn ∧ pyTruthyOptStr ds.datasourceName then
      let dparts := pySplitChar (ds.datasourceName.getD "") '_'
      if 1 < dparts.length then some (pyUpper (dparts.getLastD ""))
      else schemaFromQn
    else schemaFromQn
  let schema := if pyTruthyOptStr schemaStep2 then schemaStep2.getD "" else "UNKNOWN"
  (database, schema)

/-! ## Deletion sync (`_sync_check_deletions`) -/

/-- The check fields deletion sync reads. -/
structure CheckLite where
  name : String
  column : Option String
  deriving Repr, DecidableEq

/-- A catalog asset as returned by the suffix search. -/
structure AssetLite where
  id : String
  name : String
  deriving Repr, DecidableEq

/-- The desired-name set `soda_asset_names` of `_sync_check_deletions`: every
check's generated asset name, sharing one `seen_names` set across the loop.
Since each generated name is immediately added to `seen_names`, the final
`seen_names` list is exactly the generated-name collection. -/
def desiredAssetNames (envDatabase : Option String) (ds : DatasetLite)
    (checks : List CheckLite) : List String :=
  let dbSchema := extractDatabaseAndSchema envDatabase ds
  checks.foldl
    (fun seen ch =>
      (generate_asset_name
        { check_name := ch.name
          dataset_name := ds.name
          database := some dbSchema.1
          schema := some dbSchema.2
          column := ch.column
          envDatabase := envDatabase } seen).2)
    []

/-- The deletion decision of `_sync_check_deletions`: among the assets the
suffix search returned, collect the ids of those whose name is not in the
desired set. -/
def assetsToDelete (desired : List String) (searchResults : List AssetLite) :
    List String :=
  searchResults.foldl
    (fun acc asset => if asset.name ∈ desired then acc else acc ++ [asset.id]) []

/-- `_sync_check_deletions` restricted to its decision logic: which asset ids
get passed to the bulk delete. -/
def syncCheckDeletions (envDatabase : Option String) (ds : DatasetLite)
    (checks : List CheckLite) (searchResults : List AssetLite) : List String :=
  assetsToDelete (desiredAssetNames envDatabase ds checks) searchResults

/-! ## Source client pagination (`SodaClient._handle_pagination`)

The HTTP layer is abstracted as `fetch : Nat → Option (List α)`: the
`content` list of the page-`i` response, or `none` when the page request
yields no usable body (`not next_page or "content" not in next_page`), which
makes the loop `break`. The loop body's rate-limit sleep is counted. -/

/-- The `while page < total_pages - 1` loop of `_handle_pagination`:
`pagesLeft` is the number of iterations remaining, `page` the last processed
page index, `acc` the `all_items` accumulator, `sleeps` the number of
rate-limit pauses taken so far (one every 10th fetched page). -/
def handlePaginationGo (fetch : Nat → Option (List α)) :
    Nat → Nat → List α → Nat → List α × Nat
  | 0, _, acc, sleeps => (acc, sleeps)
  | pagesLeft + 1, page, acc, sleeps =>
    let page1 := page + 1
    let sleeps1 := if page1 % 10 = 0 then sleeps + 1 else sleeps
    match fetch page1 with
    | none => (acc, sleeps1)
    | some items =>
      handlePaginationGo fetch pagesLeft page1 (acc ++ items) sleeps1

/-- `SodaClient._handle_pagination`: the first page's `content` comes with the
initial response; pages `1 .. totalPages - 1` are then fetched in turn.
Returns the aggregated items and the number of rate-limit pauses. -/
def handlePagination (firstContent : List α) (totalPages : Nat)
    (fetch : Nat → Option (List α)) : List α × Nat :=
  handlePaginationGo fetch (totalPages - 1) 0 firstContent 0

/-- Concatenation of `cnt` consecutive pages starting at index `start`:
the reference aggregation a complete pagination should produce. -/
def pagesConcat (contents : Nat → List α) (start : Nat) : Nat → List α
  | 0 => []
  | cnt + 1 => contents start ++ pagesConcat contents (start + 1) cnt

/-! ## HTTP response model shared by both clients' error handling -/

/-- The slice of an HTTP response the embedded client code inspects. `body`
is the parsed JSON body (`none` when the body is empty or unparseable);
`location` is the redirect target header. -/
structure HttpResponse where
  status : Nat
  body : Option String
  location : Option String
  deriving Repr, DecidableEq

/-- `requests.Response.ok`: true iff the status code is below 400. -/
def responseOk (r : HttpResponse) : Bool := r.status < 400

/-- Log levels, to state "logs at info level only". -/
inductive LogLevel
  | debug
  | info
  | warning
  | error
  deriving Repr, DecidableEq

/-! ## Source client request execution (`SodaClient.execute_request`)

The network is a list of responses consumed one per issued request. The
result records what the method returns or raises, how many requests were
issued and how many back-off sleeps were taken — `raise_for_status()` runs
before the 401/429 branches in the source, and the embedding preserves that
order. -/

/-- What a `SodaClient.execute_request` call can produce. `raisedHTTP` is a
`requests.exceptions.HTTPError` from `raise_for_status`; `raisedAuth` is the
`RuntimeError` of the explicit 401 branch; `assertFailed` the `assert
response.ok`; `noResponse` models the network producing nothing. -/
inductive SodaReqResult
  | data (body : Option String)
  | raisedHTTP (status : Nat)
  | raisedAuth
  | assertFailed (status : Nat)
  | noResponse
  deriving Repr, DecidableEq

/-- `SodaClient.execute_request`, status-handling pipeline: issue the request,
count it, `raise_for_status`, return empty bodies as `None`, then the
source's 401 / 429(back-off, retry with `is_retry=True`) / assert branches.
Returns (outcome, requests issued, back-off sleeps taken). -/
def sodaExecuteRequest : List HttpResponse → Bool → SodaReqResult × Nat × Nat
  | [], _ => (.noResponse, 0, 0)
  | r :: rest, is_retry =>
    if 400 ≤ r.status then (.raisedHTTP r.status, 1, 0)
    else if r.status = 204 ∨ r.body = none then (.data none, 1, 0)
    else if r.status = 401 ∧ ¬ is_retry then (.raisedAuth, 1, 0)
    else if r.status = 429 then
      let retried := sodaExecuteRequest rest true
      (retried.1, retried.2.1 + 1, retried.2.2 + 1)
    else if responseOk r then (.data r.body, 1, 0)
    else (.assertFailed r.status, 1, 0)

/-! ## Target client bulk delete (`CollibraClient.delete_bulk_assets`) -/

/-- What `delete_bulk_assets` can produce. -/
inductive DeleteResult
  | success (body : Option String)
  | raisedHTTP (status : Nat)
  | raisedAuth
  | noResponse
  deriving Repr, DecidableEq

/-- The shared tail of `delete_bulk_assets` after the 404/redirect checks:
the source's 401 / 429(sleep, full re-entry) / ok / `raise_for_status`
cascade. `again` is the result of re-entering the method (used only in the
429 branch); `logs` the log levels emitted so far. -/
def deleteBulkTail (r : HttpResponse) (again : DeleteResult × List LogLevel)
    (logs : List LogLevel) : DeleteResult × List LogLevel :=
  if r.status = 401 then (.raisedAuth, logs)
  else if r.status = 429 then (again.1, logs ++ [.warning] ++ again.2)
  else if responseOk r then (.success r.body, logs)
  else (.raisedHTTP r.status, logs)

/-- `CollibraClient.delete_bulk_assets` over a response list: empty id list
short-circuits with a warning; a 404 (also after one redirect) is treated as
success and logged at info; 401 raises; 429 sleeps and re-enters the whole
method on the remaining responses; other non-ok statuses raise via
`raise_for_status`. Returns the outcome and the levels of the log records
emitted (debug records are modelled one per step; only the levels matter to
the theorems). -/
def deleteBulkAssets (assetIds : List String) :
    List HttpResponse → DeleteResult × List LogLevel
  | [] =>
    if assetIds = [] then (.success none, [.warning]) else (.noResponse, [.debug])
  | r :: rest =>
    if assetIds = [] then (.success none, [.warning])
    else if r.status = 404 then (.success none, [.debug, .info])
    else if r.status ∈ [301, 302, 303, 307, 308] then
      match rest with
      | [] => (.noResponse, [.debug, .debug])
      | r2 :: rest2 =>
        if r2.status = 404 then (.success none, [.debug, .debug, .info])
        else deleteBulkTail r2 (deleteBulkAssets assetIds rest2)
          [.debug, .debug]
    else deleteBulkTail r (deleteBulkAssets assetIds rest) [.debug]

/-! ## Target client bulk attribute create/update
(`CollibraClient.add_attributes_bulk`, `CollibraClient.change_attributes_bulk`)

The backend is a function from the request item list to a response, because
the create path retries with a filtered item list. -/

/-- An item of an attribute-create-bulk request. -/
structure AttributeCreateRequest where
  assetId : String
  typeId : String
  value : String
  deriving Repr, DecidableEq

/-- An item of an attribute-update-bulk request (it references the existing
attribute by `id`; it carries no type id). -/
structure AttributeUpdateRequest where
  id : String
  value : String
  deriving Repr, DecidableEq

/-- The structured Collibra error body the clients parse out of a 404. -/
structure CollibraErrorBody where
  errorCode : String
  propertiesId : Option String
  deriving Repr, DecidableEq

/-- A bulk-endpoint response: created/updated attribute ids, or an HTTP error
with an optionally parseable structured body. -/
inductive BulkResponse
  | ok (created : List String)
  | httpError (status : Nat) (body : Option CollibraErrorBody)
  deriving Repr, DecidableEq

/-- Outcome of a bulk attribute call. -/
inductive BulkResult
  | ok (created : List String)
  | raised (status : Nat)
  | fuelExhausted
  deriving Repr, DecidableEq

/-- `CollibraClient.add_attributes_bulk`: empty input returns `[]`; on a 404
whose body is `errorCode = "attTypeNotFoundId"` with a type id, the items
referencing that type are stripped and the call retries with the remainder
(returning `[]` when nothing remains); other errors re-raise. Fuel bounds the
retry recursion (the source recurses unconditionally; each productive retry
strips at least one item, so `items.length + 1` fuel is enough whenever the
offending type is actually present in the request). -/
def addAttributesBulk (backend : List AttributeCreateRequest → BulkResponse) :
    Nat → List AttributeCreateRequest → BulkResult
  | 0, _ => .fuelExhausted
  | _ + 1, [] => .ok []
  | fuel + 1, items =>
    match backend items with
    | .ok created => .ok created
    | .httpError 404 (some errBody) =>
      if errBody.errorCode = "attTypeNotFoundId" then
        match errBody.propertiesId with
        | some missingTypeId =>
          let remaining := items.filter (fun a => a.typeId ≠ missingTypeId)
          if remaining = [] then .ok []
          else addAttributesBulk backend fuel remaining
        | none => .raised 404
      else .raised 404
    | .httpError status _ => .raised status

/-- `CollibraClient.change_attributes_bulk`: issues the bulk update and
re-raises every error — it has no 404 `attTypeNotFoundId` handling. -/
def changeAttributesBulk
    (backend : List AttributeUpdateRequest → BulkResponse)
    (items : List AttributeUpdateRequest) : BulkResult :=
  match backend items with
  | .ok updated => .ok updated
  | .httpError status _ => .raised status

/-! ## JSON values (`json.loads` results, check diagnostics) -/

/-- An exact decimal number: `mant / 10 ^ scale`, not normalized. This
models the numeric values flowing through the threshold/diagnostics code.
The source computes with IEEE doubles; the exact decimal agrees with the
double on every comparison and formatting step appearing in the theorems
below (all well within double precision). Plain integer arithmetic keeps
every definition kernel-evaluable. -/
structure PyFloat where
  mant : Int
  scale : Nat
  deriving Repr, DecidableEq

/-- The rational value of a `PyFloat` (specification-level only). -/
def PyFloat.val (x : PyFloat) : ℚ := (x.mant : ℚ) / (10 : ℚ) ^ x.scale

instance : Neg PyFloat := ⟨fun x => { mant := -x.mant, scale := x.scale }⟩

/-- A Python JSON value: what `json.loads` returns. Integers and floats are
separate, as in Python (`str()` renders them differently); `jnonfinite`
covers Python's `NaN` / `Infinity` / `-Infinity` extensions. Objects are
insertion-ordered association lists with unique keys (the parser keeps the
last duplicate, as `dict` does). -/
inductive JVal
  | jstr (s : String)
  | jint (n : Int)
  | jnum (x : PyFloat)
  | jnonfinite (s : String)
  | jbool (b : Bool)
  | jnull
  | jarr (xs : List JVal)
  | jobj (fields : List (String × JVal))

/-- Whether a JSON value is a Python `dict`. -/
def JVal.isDict : JVal → Bool
  | .jobj _ => true
  | _ => false

/-- Python dict lookup on an association list with unique keys. -/
def dictGet (fields : List (String × JVal)) (key : String) : Option JVal :=
  (fields.lookup key).map id

/-- Insert into an association list with `dict` semantics: a repeated key
replaces the earlier binding, keeping the original position is *not* needed —
`json.loads` keeps the latest value; for lookup purposes dropping the earlier
pair is equivalent. -/
def dictInsert (fields : List (String × JVal)) (key : String) (v : JVal) :
    List (String × JVal) :=
  (fields.filter (fun kv => kv.1 ≠ key)) ++ [(key, v)]

/-! ## A `json.loads` parser (RFC 8259 grammar plus Python's non-finite
float extension), recursive descent over `List Char` with fuel. -/

/-- JSON whitespace (`' '`, `'\t'`, `'\n'`, `'\r'`). -/
def jsonWs (c : Char) : Bool := c = ' ' ∨ c = '\t' ∨ c = '\n' ∨ c = '\r'

/-- Drop leading JSON whitespace. -/
def skipWs (cs : List Char) : List Char := cs.dropWhile jsonWs

/-- Hex digit value. -/
def hexVal (c : Char) : Option Nat :=
  if '0' ≤ c ∧ c ≤ '9' then some (c.toNat - '0'.toNat)
  else if 'a' ≤ c ∧ c ≤ 'f' then some (c.toNat - 'a'.toNat + 10)
  else if 'A' ≤ c ∧ c ≤ 'F' then some (c.toNat - 'A'.toNat + 10)
  else none

/-- Parse the remainder of a JSON string literal (after the opening quote).
Escape sequences are decoded; a lone `\uXXXX` becomes the corresponding code
point (surrogate-pair recombination is not modelled — no theorem below feeds
surrogate escapes). Control characters below 0x20 are rejected, as in the
strict Python decoder. -/
def parseStringBody : Nat → List Char → List Char → Option (String × List Char)
  | 0, _, _ => none
  | _ + 1, acc, '\"' :: rest => some (String.mk acc.reverse, rest)
  | fuel + 1, acc, '\\' :: e :: rest =>
    match e with
    | '\"' => parseStringBody fuel ('\"' :: acc) rest
    | '\\' => parseStringBody fuel ('\\' :: acc) rest
    | '/' => parseStringBody fuel ('/' :: acc) rest
    | 'b' => parseStringBody fuel (Char.ofNat 8 :: acc) rest
    | 'f' => parseStringBody fuel (Char.ofNat 12 :: acc) rest
    | 'n' => parseStringBody fuel ('\n' :: acc) rest
    | 'r' => parseStringBody fuel ('\r' :: acc) rest
    | 't' => parseStringBody fuel ('\t' :: acc) rest
    | 'u' =>
      match rest with
      | h1 :: h2 :: h3 :: h4 :: rest4 =>
        match hexVal h1, hexVal h2, hexVal h3, hexVal h4 with
        | some a, some b, some c, some d =>
          parseStringBody fuel
            (Char.ofNat (((a * 16 + b) * 16 + c) * 16 + d) :: acc) rest4
        | _, _, _, _ => none
      | _ => none
    | _ => none
  | fuel + 1, acc, c :: rest =>
    if c.toNat < 32 then none else parseStringBody fuel (c :: acc) rest
  | _, _, [] => none

/-- Digits consumed greedily. -/
def takeDigits (cs : List Char) : List Char × List Char :=
  (cs.takeWhile Char.isDigit, cs.dropWhile Char.isDigit)

/-- Natural value of a digit list. -/
def digitsToNat (ds : List Char) : Nat :=
  ds.foldl (fun acc c => acc * 10 + (c.toNat - '0'.toNat)) 0

/-- Build the exact value `digits * 10 ^ (expo - fracLen)` as a `PyFloat`. -/
def mkPyFloat (digits : Nat) (expo : Int) (fracLen : Nat) : PyFloat :=
  let e : Int := expo - (fracLen : Int)
  if 0 ≤ e then { mant := (digits : Int) * 10 ^ e.toNat, scale := 0 }
  else { mant := (digits : Int), scale := (-e).toNat }

/-- Parse a JSON number after an optional leading minus has been noted:
`(0|[1-9][0-9]*)(\.[0-9]+)?([eE][+-]?[0-9]+)?`. Returns the integer flag
(no fraction, no exponent), the exact value, and the rest. -/
def parseNumberTail (cs : List Char) : Option (Bool × PyFloat × List Char) :=
  match takeDigits cs with
  | ([], _) => none
  | (intDs, rest0) =>
    if intDs.length > 1 ∧ intDs.headD '0' = '0' then none
    else
      let fracPart : Option (List Char × List Char) :=
        match rest0 with
        | '.' :: rest1 =>
          match takeDigits rest1 with
          | ([], _) => none
          | (fds, rest2) => some (fds, rest2)
        | _ => some ([], rest0)
      match fracPart with
      | none => none
      | some (fracDs, rest2) =>
        let expPart : Option (Int × List Char) :=
          match rest2 with
          | 'e' :: rest3 | 'E' :: rest3 =>
            let signRest : (Int → Int) × List Char :=
              match rest3 with
              | '+' :: rest4 => (id, rest4)
              | '-' :: rest4 => (fun n => -n, rest4)
              | _ => (id, rest3)
            match takeDigits signRest.2 with
            | ([], _) => none
            | (eds, rest5) => some (signRest.1 (digitsToNat eds), rest5)
          | _ => some (0, rest2)
        match expPart with
        | none => none
        | some (expo, restF) =>
          let value := mkPyFloat (digitsToNat (intDs ++ fracDs)) expo
            fracDs.length
          let isInt : Bool :=
            fracDs.isEmpty && (match rest2 with
              | 'e' :: _ => false
              | 'E' :: _ => false
              | _ => true)
          some (isInt, value, restF)

mutual

/-- Parse one JSON value (leading whitespace allowed). Fuel bounds the
recursion; `jsonLoads` supplies `length + 1`, which always suffices since
every recursive call consumes at least one character. -/
def parseValue : Nat → List Char → Option (JVal × List Char)
  | 0, _ => none
  | fuel + 1, cs =>
    match skipWs cs with
    | [] => none
    | c :: rest =>
      if c = '\"' then
        (parseStringBody (fuel + 1) [] rest).map (fun sr => (.jstr sr.1, sr.2))
      else if c = '{' then parseObjFields fuel (skipWs rest) [] true
      else if c = '[' then parseArrItems fuel (skipWs rest) [] true
      else if c = 't' then
        if rest.take 3 = ['r', 'u', 'e'] then some (.jbool true, rest.drop 3)
        else none
      else if c = 'f' then
        if rest.take 4 = ['a', 'l', 's', 'e'] then
          some (.jbool false, rest.drop 4)
        else none
      else if c = 'n' then
        if rest.take 3 = ['u', 'l', 'l'] then some (.jnull, rest.drop 3)
        else none
      else if c = 'N' then
        if rest.take 2 = ['a', 'N'] then some (.jnonfinite "nan", rest.drop 2)
        else none
      else if c = 'I' then
        if rest.take 7 = ['n', 'f', 'i', 'n', 'i', 't', 'y'] then
          some (.jnonfinite "inf", rest.drop 7)
        else none
      else if c = '-' then
        match rest with
        | 'I' :: rest2 =>
          if rest2.take 7 = ['n', 'f', 'i', 'n', 'i', 't', 'y'] then
            some (.jnonfinite "-inf", rest2.drop 7)
          else none
        | _ =>
          (parseNumberTail rest).map (fun r =>
            (if r.1 then .jint (-(r.2.1.mant)) else .jnum (-r.2.1), r.2.2))
      else
        (parseNumberTail (c :: rest)).map (fun r =>
          (if r.1 then .jint r.2.1.mant else .jnum r.2.1, r.2.2))

/-- Parse the fields of an object: called either right after `{` (with
`first = true`, whitespace skipped, expecting `}` or a key) or right after a
field's value (with `first = false`, whitespace skipped, expecting `,` or
`}`). -/
def parseObjFields : Nat → List Char → List (String × JVal) → Bool →
    Option (JVal × List Char)
  | 0, _, _, _ => none
  | fuel + 1, cs, acc, first =>
    match cs with
    | '}' :: rest => some (.jobj acc, rest)
    | ',' :: rest =>
      if first then none else parseObjField fuel (skipWs rest) acc
    | _ => if first then parseObjField fuel cs acc else none

/-- Parse one `"key": value` field and continue with the remaining fields. -/
def parseObjField : Nat → List Char → List (String × JVal) →
    Option (JVal × List Char)
  | 0, _, _ => none
  | fuel + 1, cs, acc =>
    match cs with
    | '\"' :: restK =>
      match parseStringBody (fuel + 1) [] restK with
      | none => none
      | some (key, restAfterKey) =>
        match skipWs restAfterKey with
        | ':' :: restV =>
          match parseValue fuel restV with
          | none => none
          | some (v, restAfterV) =>
            parseObjFields fuel (skipWs restAfterV) (dictInsert acc key v)
              false
        | _ => none
    | _ => none

/-- Parse the items of an array: called either right after `[` (with
`first = true`) or right after an item (with `first = false`), whitespace
skipped in both cases. -/
def parseArrItems : Nat → List Char → List JVal → Bool →
    Option (JVal × List Char)
  | 0, _, _, _ => none
  | fuel + 1, cs, acc, first =>
    match cs with
    | ']' :: rest => some (.jarr acc.reverse, rest)
    | ',' :: rest =>
      if first then none else parseArrItem fuel rest acc
    | _ => if first then parseArrItem fuel cs acc else none

/-- Parse one array item and continue with the remaining items. -/
def parseArrItem : Nat → List Char → List JVal → Option (JVal × List Char)
  | 0, _, _ => none
  | fuel + 1, cs, acc =>
    match parseValue fuel cs with
    | none => none
    | some (v, restAfterV) =>
      parseArrItems fuel (skipWs restAfterV) (v :: acc) false

end

/-- `json.loads`: parse one value surrounded by optional whitespace; anything
left over is an error (`Extra data`), any failure raises `JSONDecodeError`
(modelled as `none`). -/
def jsonLoads (s : String) : Option JVal :=
  let cs := s.toList
  match parseValue (cs.length + 1) cs with
  | none => none
  | some (v, rest) => if skipWs rest = [] then some v else none

/-- `utils.get_domain_mappings`: empty or whitespace-only input returns the
empty dict; a `JSONDecodeError` is caught and the empty dict returned;
otherwise whatever `json.loads` produced is returned unchanged. -/
def get_domain_mappings (domain_mapping_json : String) : JVal :=
  if domain_mapping_json = "" ∨ pyStrip domain_mapping_json = "" then .jobj []
  else
    match jsonLoads domain_mapping_json with
    | some v => v
    | none => .jobj []

/-! ## A small regex layer

`_is_percentage_threshold` and `_extract_threshold_value` use `re.search`
with patterns built from case-insensitive literals, `\s*`, `\s+`, `\n` and a
single trailing capture group `([0-9.]+)`. The patterns are encoded as token
lists and matched with a backtracking matcher (greedy whitespace and digit
runs, longest first), giving the leftmost-match semantics of `re.search`. -/

/-- Python regex `\s` (ASCII portion: the inputs here are ASCII). -/
def isPyWs (c : Char) : Bool :=
  c = ' ' ∨ c = '\t' ∨ c = '\n' ∨ c = '\r' ∨ c = Char.ofNat 11 ∨ c = Char.ofNat 12

/-- A `[0-9.]` character. -/
def isNumChar (c : Char) : Bool := c.isDigit ∨ c = '.'

/-- A regex token of the patterns used by the threshold code. -/
inductive RTok
  | lit (s : String)
  | ws0
  | ws1
  | nl
  | num
  deriving Repr, DecidableEq

/-- Case-insensitive prefix test (ASCII lower-casing, like `re.IGNORECASE`
on the ASCII inputs involved). -/
def ciIsPrefix : List Char → List Char → Bool
  | [], _ => true
  | _ :: _, [] => false
  | p :: ps, c :: cs => p.toLower = c.toLower ∧ ciIsPrefix ps cs

/-- Backtracking over a greedy run: try the splits `k` in the given order
(the callers pass `[m, m-1, ..., minK]`, longest first) and continue with
`f (cs.drop k)`; `adjust k` post-processes the capture of the chosen split. -/
def tryRunSplits (f : List Char → Option (Nat × String)) (cs : List Char)
    (adjust : Nat → String → String) : List Nat → Option (Nat × String)
  | [] => none
  | k :: ks =>
    match f (cs.drop k) with
    | some r => some (k + r.1, adjust k r.2)
    | none => tryRunSplits f cs adjust ks

/-- The candidate split sizes `[m, m-1, ..., minK]` of a greedy run of
maximal length `m`. -/
def greedySplits (m minK : Nat) : List Nat :=
  ((List.range (m + 1)).filter (fun k => minK ≤ k)).reverse

/-- Match a token list at the start of `cs`, returning the number of
characters consumed and the capture of the `num` group (empty when the
pattern has none). Whitespace and digit runs backtrack greedily (longest
split first), as the regex engine does. -/
def matchToks : List RTok → List Char → Option (Nat × String)
  | [], _ => some (0, "")
  | .lit s :: rest, cs =>
    if ciIsPrefix s.toList cs then
      (matchToks rest (cs.drop s.length)).map (fun r => (s.length + r.1, r.2))
    else none
  | .nl :: rest, cs =>
    match cs with
    | '\n' :: cs2 => (matchToks rest cs2).map (fun r => (1 + r.1, r.2))
    | _ => none
  | .ws0 :: rest, cs =>
    tryRunSplits (fun cs2 => matchToks rest cs2) cs (fun _ cap => cap)
      (greedySplits ((cs.takeWhile isPyWs).length) 0)
  | .ws1 :: rest, cs =>
    tryRunSplits (fun cs2 => matchToks rest cs2) cs (fun _ cap => cap)
      (greedySplits ((cs.takeWhile isPyWs).length) 1)
  | .num :: rest, cs =>
    let run := cs.takeWhile isNumChar
    if run.isEmpty then none
    else
      tryRunSplits (fun cs2 => matchToks rest cs2) cs
        (fun k _ => String.mk (run.take k)) (greedySplits run.length 1)

/-- `re.search`: leftmost match of the pattern, returning the matched text
(`group(0)`) and the `num` capture (`group(1)`). -/
def reSearch (toks : List RTok) : List Char → Option (String × String)
  | [] =>
    match matchToks toks [] with
    | some r => some ("", r.2)
    | none => none
  | c :: rest =>
    match matchToks toks (c :: rest) with
    | some r => some (String.mk ((c :: rest).take r.1), r.2)
    | none => reSearch toks rest

/-! ## Python `float()` and float formatting over exact rationals -/

/-- Python `float(s)` for the decimal syntax
`[+-]? (d+ | d+.d* | .d+) ([eE][+-]?d+)?` (whitespace-stripped), as an exact
decimal. Non-finite literals (`inf`, `nan`) are not representable and yield
`none`; every caller below rejects their values anyway (range check or
no-digit guard). -/
def pyFloatParse (s : String) : Option PyFloat :=
  let cs0 := (pyStrip s).toList
  let signAndRest : Int × List Char :=
    match cs0 with
    | '+' :: r => (1, r)
    | '-' :: r => (-1, r)
    | _ => (1, cs0)
  let cs1 := signAndRest.2
  let intDs := cs1.takeWhile Char.isDigit
  let rest1 := cs1.dropWhile Char.isDigit
  let fracAndRest : List Char × List Char :=
    match rest1 with
    | '.' :: r2 => (r2.takeWhile Char.isDigit, r2.dropWhile Char.isDigit)
    | _ => ([], rest1)
  let fracDs := fracAndRest.1
  let rest2 := fracAndRest.2
  if intDs = [] ∧ fracDs = [] then none
  else
    let expPart : Option (Int × List Char) :=
      match rest2 with
      | 'e' :: r3 | 'E' :: r3 =>
        let se : (Int → Int) × List Char :=
          match r3 with
          | '+' :: r4 => (id, r4)
          | '-' :: r4 => (fun n => -n, r4)
          | _ => (id, r3)
        let eds := se.2.takeWhile Char.isDigit
        if eds = [] then none
        else some (se.1 (digitsToNat eds), se.2.dropWhile Char.isDigit)
      | _ => some (0, rest2)
    match expPart with
    | none => none
    | some (expo, restF) =>
      if restF = [] then
        let x := mkPyFloat (digitsToNat (intDs ++ fracDs)) expo fracDs.length
        some (if signAndRest.1 < 0 then -x else x)
      else none

/-- Round `num / den` (`den > 0`) to `prec` decimal digits with banker's
rounding and render it as Python's fixed-point format `f"{x:.precf}"` does.
The source formats an IEEE double; over the values appearing in the theorems
the double and the exact fraction round identically. -/
def pyFormatFixed (prec : Nat) (num den : Int) : String :=
  let n := num.natAbs
  let d := den.natAbs
  let scaled := n * 10 ^ prec
  let quot := scaled / d
  let rem := scaled % d
  let rounded :=
    if 2 * rem < d then quot
    else if d < 2 * rem then quot + 1
    else if quot % 2 = 0 then quot else quot + 1
  let p := 10 ^ prec
  let fracStr := toString (rounded % p)
  (if num < 0 then "-" else "") ++ toString (rounded / p) ++ "." ++
    String.mk (List.replicate (prec - fracStr.length) '0') ++ fracStr

/-- Drop trailing copies of `c` (Python `str.rstrip(c)`). -/
def pyRstrip (s : String) (c : Char) : String :=
  String.mk ((s.toList.reverse.dropWhile (· = c)).reverse)

/-- `f"{x:.10f}".rstrip('0').rstrip('.')`: the decimal string the threshold
normalizer emits for the value `x`. -/
def pyFormatTrim10 (x : PyFloat) : String :=
  pyRstrip (pyRstrip (pyFormatFixed 10 x.mant (10 ^ x.scale)) '0') '.'

/-! ## The check model used by the threshold / diagnostics code -/

/-- The fields of a check the threshold and diagnostics code reads.
`diagnostics` is `lastCheckResultValue.diagnostics`; `none` covers both a
missing `lastCheckResultValue` and missing diagnostics (the source treats
the two identically). -/
structure SodaCheckLite where
  name : String
  checkType : Option String
  definition : Option String
  diagnostics : Option (List (String × JVal))
  attributes : List (String × JVal)

/-- Strip redundant trailing decimal zeros: the canonical form a shortest
round-trip `repr` prints. -/
def pyFloatCanon : Int → Nat → PyFloat
  | m, 0 => { mant := m, scale := 0 }
  | m, s + 1 =>
    if m % 10 = 0 then pyFloatCanon (m / 10) s
    else { mant := m, scale := s + 1 }

/-- Python `str()` of a JSON number (diagnostic threshold values): `str(int)`
plainly, `str(float)` with a decimal point, shortest-repr style (which, for
the exactly-representable decimals flowing through this code, is the trimmed
exact expansion). -/
def pyStrNum : JVal → Option String
  | .jint n => some (toString n)
  | .jnonfinite s => some s
  | .jnum x =>
    let c := pyFloatCanon x.mant x.scale
    if c.scale = 0 then some (toString c.mant ++ ".0")
    else
      let n := c.mant.natAbs
      let p := 10 ^ c.scale
      let fracStr := toString (n % p)
      some ((if c.mant < 0 then "-" else "") ++ toString (n / p) ++ "." ++
        String.mk (List.replicate (c.scale - fracStr.length) '0') ++ fracStr)
  | _ => none

/-- First hit of `f` over a list (`for`-loop with early `return`). -/
def firstSome (f : α → Option β) : List α → Option β
  | [] => none
  | x :: xs =>
    match f x with
    | some b => some b
    | none => firstSome f xs

/-- The `fail`-config comparison keys of `_extract_threshold_value`. -/
def failKeys : List String :=
  ["greaterThan", "lessThan", "greaterThanOrEqual", "lessThanOrEqual",
    "mustBe", "mustNotBe"]

/-- The `threshold`-dict comparison keys of `_extract_threshold_value`. -/
def thresholdKeys : List String :=
  ["must_be", "must_be_greater_than", "must_be_less_than", "greater_than",
    "less_than"]

/-- The diagnostics scan of `_extract_threshold_value`: first numeric
comparison value in any diagnostic's `fail` config, else in its `threshold`
dict (descending into one nested dict level, e.g. `must_be_between`), else a
bare numeric `threshold`. -/
def extractThresholdFromDiagnostics
    (diags : List (String × JVal)) : Option String :=
  firstSome (fun kv =>
    match kv.2 with
    | .jobj d =>
      let fromFail : Option String :=
        match dictGet d "fail" with
        | some (.jobj fc) =>
          firstSome (fun kv2 =>
            if kv2.1 ∈ failKeys then pyStrNum kv2.2 else none) fc
        | _ => none
      match fromFail with
      | some s => some s
      | none =>
        match dictGet d "threshold" with
        | some (.jobj t) =>
          firstSome (fun kv2 =>
            if kv2.1 ∈ thresholdKeys then
              match pyStrNum kv2.2 with
              | some s => some s
              | none =>
                match kv2.2 with
                | .jobj nested => firstSome (fun kv3 => pyStrNum kv3.2) nested
                | _ => none
            else none) t
        | some v => pyStrNum v
        | none => none
    | _ => none) diags

/-- The 15 `threshold_patterns` of `_extract_threshold_value`, in source
order. -/
def thresholdPatterns : List (List RTok) :=
  [ [.lit "threshold", .ws0, .lit ":", .ws0, .nl, .ws1, .lit "metric", .ws0,
      .lit ":", .ws0, .lit "percent", .ws0, .nl, .ws1, .lit "must_be", .ws0,
      .lit ":", .ws0, .num],
    [.lit "threshold", .ws0, .lit ":", .ws0, .nl, .ws1, .lit "metric", .ws0,
      .lit ":", .ws0, .lit "percent", .ws0, .nl, .ws1,
      .lit "must_be_greater_than", .ws0, .lit ":", .ws0, .num],
    [.lit "threshold", .ws0, .lit ":", .ws0, .nl, .ws1, .lit "metric", .ws0,
      .lit ":", .ws0, .lit "percent", .ws0, .nl, .ws1,
      .lit "must_be_less_than", .ws0, .lit ":", .ws0, .num],
    [.lit "threshold", .ws0, .lit ":", .ws0, .nl, .ws1, .lit "must_be", .ws0,
      .lit ":", .ws0, .num],
    [.lit "threshold", .ws0, .lit ":", .ws0, .nl, .ws1,
      .lit "must_be_greater_than", .ws0, .lit ":", .ws0, .num],
    [.lit "threshold", .ws0, .lit ":", .ws0, .nl, .ws1,
      .lit "must_be_less_than", .ws0, .lit ":", .ws0, .num],
    [.lit "threshold", .ws0, .lit ":", .ws0, .nl, .ws0, .lit "must_be", .ws0,
      .lit ":", .ws0, .num],
    [.lit "threshold", .ws0, .lit ":", .ws0, .nl, .ws0,
      .lit "must_be_greater_than", .ws0, .lit ":", .ws0, .num],
    [.lit "threshold", .ws0, .lit ":", .ws0, .nl, .ws0,
      .lit "must_be_less_than", .ws0, .lit ":", .ws0, .num],
    [.lit "threshold", .ws0, .lit ":", .ws0, .lit "must_be", .ws0, .lit ":",
      .ws0, .num],
    [.lit "threshold", .ws0, .lit ":", .ws0, .lit "must_be_greater_than",
      .ws0, .lit ":", .ws0, .num],
    [.lit "threshold", .ws0, .lit ":", .ws0, .lit "must_be_less_than", .ws0,
      .lit ":", .ws0, .num],
    [.lit "must_be", .ws0, .lit ":", .ws0, .num],
    [.lit "must_be_greater_than", .ws0, .lit ":", .ws0, .num],
    [.lit "must_be_less_than", .ws0, .lit ":", .ws0, .num] ]

/-- The definition-text scan of `_extract_threshold_value`: first pattern
(in priority order) with a match; its capture if it parses as a float, else
the first `[0-9.]+` run of the matched text if that parses, else the next
pattern. -/
def extractThresholdFromDefinition (defn : String) : Option String :=
  firstSome (fun pat =>
    match reSearch pat defn.toList with
    | none => none
    | some wc =>
      let numeric := pyStrip wc.2
      if (pyFloatParse numeric).isSome then some numeric
      else
        match reSearch [RTok.num] wc.1.toList with
        | some wc2 => if (pyFloatParse wc2.2).isSome then some wc2.2 else none
        | none => none) thresholdPatterns

/-- `SodaCollibraIntegration._extract_threshold_value`. -/
def extract_threshold_value (check : SodaCheckLite) : Option String :=
  match (check.diagnostics.map extractThresholdFromDiagnostics).join with
  | some s => some s
  | none =>
    if pyTruthyOptStr check.definition then
      extractThresholdFromDefinition (check.definition.getD "")
    else none

/-- The check kinds the percentage fallback heuristic recognizes. -/
def percentageCheckTypes : List String :=
  ["missing", "duplicate", "invalid", "failed_rows"]

/-- The check-kind heuristic shared by `_is_percentage_threshold` and
`_add_custom_attributes`: some listed kind is a substring of the lower-cased
`checkType`. -/
def checkTypeSuggestsPercent (checkType : Option String) : Bool :=
  match checkType with
  | some ct =>
    ct ≠ "" ∧ percentageCheckTypes.any (fun t => pyIn t (pyLower ct))
  | none => false

/-- Whether an optional JSON value is the given string (Python
`value == "..."`). -/
def jvalIsStr (v : Option JVal) (s : String) : Bool :=
  match v with
  | some (.jstr t) => t = s
  | _ => false

/-- `SodaCollibraIntegration._is_percentage_threshold`. -/
def is_percentage_threshold (check : SodaCheckLite) : Bool :=
  let fromDefinition : Bool :=
    if pyTruthyOptStr check.definition then
      let dl := pyLower (check.definition.getD "")
      (reSearch [.lit "metric", .ws0, .lit ":", .ws0, .lit "percent"]
          dl.toList).isSome ||
      (reSearch [.lit "metric", .ws1, .lit "percent"] dl.toList).isSome ||
      (pyIn "threshold" dl && pyIn "percent" dl &&
        (match pyFind dl "threshold", pyFind dl "percent" with
         | some tp, some pp => ((tp : ℤ) - (pp : ℤ)).natAbs < 200
         | _, _ => false))
    else false
  let fromDiagnostics : Bool :=
    match check.diagnostics with
    | none => false
    | some items =>
      items.any (fun kv =>
        match kv.2 with
        | .jobj d =>
          (match dictGet d "threshold" with
           | some (.jobj t) => jvalIsStr (dictGet t "metric") "percent"
           | _ => false) ||
          (match dictGet d "fail" with
           | some (.jobj fc) => jvalIsStr (dictGet fc "metric") "percent"
           | _ => false)
        | _ => false)
  let fromCheckType : Bool :=
    checkTypeSuggestsPercent check.checkType &&
    pyTruthyOptStr check.definition &&
    pyIn "threshold" (pyLower (check.definition.getD ""))
  fromDefinition || fromDiagnostics || fromCheckType

/-- `SodaCollibraIntegration._sanitize_threshold_value`. -/
def sanitize_threshold_value (threshold_value : String) : Option String :=
  if threshold_value = "" then none
  else
    let sanitized := pyStrip threshold_value
    match reSearch [RTok.num] sanitized.toList with
    | some wc => if (pyFloatParse wc.2).isSome then some wc.2 else none
    | none => if (pyFloatParse sanitized).isSome then some sanitized else none

/-- The `"threshold"` branch of `_add_custom_attributes`: the decimal string
pushed as the threshold attribute value, or `none` when nothing is emitted
(no extractable value, not percentage-based, unsanitizable, unparseable, or
out of the [0, 100] range). -/
def thresholdDecimalString (check : SodaCheckLite) : Option String :=
  match extract_threshold_value check with
  | none => none
  | some tv =>
    if tv = "" then none
    else
      let is_percent :=
        is_percentage_threshold check || checkTypeSuggestsPercent check.checkType
      if is_percent then
        match sanitize_threshold_value tv with
        | none => none
        | some sv =>
          if sv = "" then none
          else
            match pyFloatParse sv with
            | none => none
            | some v =>
              if 0 ≤ v.mant ∧ v.mant ≤ 100 * 10 ^ v.scale then
                some (pyFormatTrim10 { mant := v.mant, scale := v.scale + 2 })
              else none
      else none

/-- `SodaCollibraIntegration._add_custom_attributes`: walk the configured
mapping; the `"threshold"` entry goes through the threshold pipeline, other
entries copy the check's custom attribute value when present. -/
def add_custom_attributes (mapping : List (String × String))
    (check : SodaCheckLite) (attribute_definitions : List (String × JVal)) :
    List (String × JVal) :=
  mapping.foldl
    (fun acc nameTid =>
      if nameTid.1 = "threshold" then
        match thresholdDecimalString check with
        | some d => acc ++ [(nameTid.2, .jstr d)]
        | none => acc
      else
        if !check.attributes.isEmpty then
          match check.attributes.lookup nameTid.1 with
          | some v => acc ++ [(nameTid.2, v)]
          | none => acc
        else acc)
    attribute_definitions

/-! ## Diagnostic row-count attributes (`_add_diagnostic_attributes`) -/

/-- The attribute-type-id configuration the diagnostics code reads. -/
structure AttrTypeConfig where
  check_loaded_rows_attribute : String
  check_rows_failed_attribute : String
  check_rows_passed_attribute : String
  check_passing_fraction_attribute : String
  deriving Repr, DecidableEq

/-- The diagnostics scan of `_add_diagnostic_attributes`: first non-zero
`failedRowsCount`, and first non-zero `checkRowsTested` (falling back to
`datasetRowsTested`), across the diagnostic entries, starting from the 0
defaults. Row counts are JSON integers. Returns
`(failed_rows_count, check_rows_tested)`. -/
def extractDiagCounts (diags : Option (List (String × JVal))) : Int × Int :=
  match diags with
  | none => (0, 0)
  | some items =>
    items.foldl
      (fun fc kv =>
        match kv.2 with
        | .jobj d =>
          let failed :=
            if fc.1 = 0 then
              match dictGet d "failedRowsCount" with
              | some (.jint n) => n
              | _ => fc.1
            else fc.1
          let tested1 :=
            if fc.2 = 0 then
              match dictGet d "checkRowsTested" with
              | some (.jint n) => n
              | _ => fc.2
            else fc.2
          let tested2 :=
            if tested1 = 0 then
              match dictGet d "datasetRowsTested" with
              | some (.jint n) => n
              | _ => tested1
            else tested1
          (failed, tested2)
        | _ => fc)
      (0, 0)

/-- `SodaCollibraIntegration._add_diagnostic_attributes`, as written: the
loaded-rows attribute is appended when `check_rows_tested > 0`; the
failed-rows attribute — and, nested inside that branch, the passed-rows and
passing-fraction attributes — only when additionally
`failed_rows_count > 0`. -/
def add_diagnostic_attributes (cfg : AttrTypeConfig) (check : SodaCheckLite)
    (attribute_definitions : List (String × JVal)) : List (String × JVal) :=
  let counts := extractDiagCounts check.diagnostics
  let failed := counts.1
  let tested := counts.2
  if 0 < tested then
    let withLoaded :=
      attribute_definitions ++ [(cfg.check_loaded_rows_attribute, .jint tested)]
    if 0 < failed then
      let passed := tested - failed
      let fraction := pyFormatFixed 2 (passed * 100) tested
      withLoaded ++
        [(cfg.check_rows_failed_attribute, .jint failed),
          (cfg.check_rows_passed_attribute, .jint passed),
          (cfg.check_passing_fraction_attribute, .jstr fraction)]
    else withLoaded
  else attribute_definitions

/-! ## Ownership synchronization (`_synchronize_dataset_ownership`) -/

/-- An owner extracted from a Collibra responsibility. -/
structure OwnerRef where
  id : String
  resourceType : String
  deriving Repr, DecidableEq

/-- A user of the monitoring platform. -/
structure SodaUser where
  userId : String
  email : String
  fullName : String
  deriving Repr, DecidableEq

/-- The external state ownership sync reads: the table-asset search result
for the dataset's full name, the owner responsibilities of that asset, the
email(s) of a Collibra user / the members of a group, and the user-search
results of the monitoring platform for an email search term. -/
structure OwnershipEnv where
  tableAssets : List AssetLite
  responsibilities : List OwnerRef
  userEmails : String → List String
  groupEmails : String → List String
  sodaUserSearch : String → List SodaUser

/-- `SodaCollibraIntegration._find_soda_users_by_emails`: for each email,
the first search hit whose email matches case-insensitively; emails with no
hit are collected separately. -/
def findSodaUsersByEmails (env : OwnershipEnv) (emails : List String) :
    List String × List String :=
  emails.foldl
    (fun acc email =>
      match (env.sodaUserSearch email).find?
          (fun u => pyLower u.email = pyLower email) with
      | some u => (acc.1 ++ [u.userId], acc.2)
      | none => (acc.1, acc.2 ++ [email]))
    ([], [])

/-- `SodaCollibraIntegration._map_collibra_owners_to_soda_users`: resolve
each owner's email(s) (directly for a user, via group expansion for a
group), look the emails up in the monitoring platform, and deduplicate both
the matched ids and the missing emails (`list(set(...))`). -/
def mapCollibraOwnersToSodaUsers (env : OwnershipEnv)
    (owners : List OwnerRef) : List String × List String :=
  let collected :=
    owners.foldl
      (fun acc owner =>
        if owner.resourceType = "User" then
          let r := findSodaUsersByEmails env (env.userEmails owner.id)
          (acc.1 ++ r.1, acc.2 ++ r.2)
        else if owner.resourceType = "UserGroup" then
          let r := findSodaUsersByEmails env (env.groupEmails owner.id)
          (acc.1 ++ r.1, acc.2 ++ r.2)
        else acc)
      ([], [])
  (collected.1.dedup, collected.2.dedup)

/-- `SodaCollibraIntegration._find_collibra_asset_for_dataset`: the search
must return exactly one asset; zero or several yield `none`. -/
def findCollibraAssetForDataset (env : OwnershipEnv) : Option String :=
  match env.tableAssets with
  | [a] => some a.id
  | _ => none

/-- What an ownership-sync run produced: the per-dataset error strings, the
matched (deduplicated) user ids, the unmatched emails, and the owner list
pushed to the source dataset (`none` when no update was issued). -/
structure OwnershipSyncResult where
  errors : List String
  matchedIds : List String
  missingEmails : List String
  pushed : Option (List (String × String))

/-- `SodaCollibraIntegration._synchronize_dataset_ownership`: skip (with an
error) when the table asset is not uniquely found; skip silently when there
are no owner responsibilities; record one error per unmatched email; push a
replace-all owner update built from the matched set iff it is non-empty. -/
def synchronize_dataset_ownership (env : OwnershipEnv) :
    OwnershipSyncResult :=
  match findCollibraAssetForDataset env with
  | none =>
    { errors := ["No Collibra asset found for ownership sync"]
      matchedIds := []
      missingEmails := []
      pushed := none }
  | some _ =>
    if env.responsibilities = [] then
      { errors := [], matchedIds := [], missingEmails := [], pushed := none }
    else
      let mapped := mapCollibraOwnersToSodaUsers env env.responsibilities
      let errors0 :=
        mapped.2.map (fun e => "No Soda user found with email: " ++ e)
      if mapped.1 = [] then
        { errors := errors0 ++ ["No matching Soda users found for Collibra owners"]
          matchedIds := mapped.1
          missingEmails := mapped.2
          pushed := none }
      else
        { errors := errors0
          matchedIds := mapped.1
          missingEmails := mapped.2
          pushed := some (mapped.1.map (fun uid => ("user", uid))) }

/-! ## Concrete instances used by the witnesses, counterexamples and
evaluation checks -/

/-- A `SNOWFLAKE_DATABASE` environment value. -/
def envDwh : Option String := some "DWH"

/-- A dataset whose qualified name yields schema `PUBLIC`. -/
def dsOrders : DatasetLite :=
  { name := "orders"
    qualifiedName := some "dwh.public.orders"
    datasourceName := some "data_platform_raw" }

/-- Two live checks: their generated names are the desired set. -/
def checksAC : List CheckLite :=
  [{ name := "check_a", column := none }, { name := "check_c", column := none }]

/-- Catalog asset `A`: name matches the first live check. -/
def assetA : AssetLite := { id := "id-a", name := "DWH-PUBLIC-ORDERS check_a" }

/-- Catalog asset `B`: a stale check, in no desired set. -/
def assetB : AssetLite := { id := "id-b", name := "DWH-PUBLIC-ORDERS stale_check" }

/-- Catalog asset `C`: name matches the second live check. -/
def assetC : AssetLite := { id := "id-c", name := "DWH-PUBLIC-ORDERS check_c" }

/-- The suffix-search result `{A, B, C}`. -/
def resultsABC : List AssetLite := [assetA, assetB, assetC]

/-- A check whose diagnostics carry a percentage threshold of value 5. -/
def chkPct5 : SodaCheckLite :=
  { name := "missing_check"
    checkType := some "missing"
    definition := none
    diagnostics := some [("missing",
      .jobj [("threshold",
        .jobj [("metric", .jstr "percent"), ("must_be", .jint 5)])])]
    attributes := [] }

/-- The same check with the out-of-range threshold value 150. -/
def chkPct150 : SodaCheckLite :=
  { name := "missing_check"
    checkType := some "missing"
    definition := none
    diagnostics := some [("missing",
      .jobj [("threshold",
        .jobj [("metric", .jstr "percent"), ("must_be", .jint 150)])])]
    attributes := [] }

/-- A check carrying the threshold in its YAML definition (multi-line
layout with `metric: percent`). -/
def chkDefPct5 : SodaCheckLite :=
  { name := "missing_check"
    checkType := some "missing"
    definition := some ("checks for ORDERS:\n  - missing_count(customer_id):\n" ++
      "      threshold:\n        metric: percent\n        must_be_less_than: 5\n")
    diagnostics := none
    attributes := [] }

/-- Three attribute-create items; the second references an unknown type. -/
def attrsOneUnknown : List AttributeCreateRequest :=
  [{ assetId := "asset-1", typeId := "type-known", value := "v1" },
    { assetId := "asset-2", typeId := "type-missing", value := "v2" },
    { assetId := "asset-3", typeId := "type-known", value := "v3" }]

/-- The structured 404 body Collibra returns for an unknown attribute type. -/
def errUnknownAttrType : CollibraErrorBody :=
  { errorCode := "attTypeNotFoundId", propertiesId := some "type-missing" }

/-- A backend that 404s whenever some item references `type-missing` and
otherwise creates one attribute id per item. -/
def backendUnknownType : List AttributeCreateRequest → BulkResponse :=
  fun reqs =>
    if reqs.any (fun a => a.typeId = "type-missing") then
      .httpError 404 (some errUnknownAttrType)
    else .ok (reqs.map (fun a => a.assetId ++ ":attr"))

/-- An update-bulk backend answering the same structured `type not found`
404. -/
def backendUnknownTypeUpd : List AttributeUpdateRequest → BulkResponse :=
  fun _ => .httpError 404 (some errUnknownAttrType)

/-- Two update items. -/
def updItems : List AttributeUpdateRequest :=
  [{ id := "attr-1", value := "v1" }, { id := "attr-2", value := "v2" }]

/-- An HTTP 429 response. -/
def resp429 : HttpResponse :=
  { status := 429, body := some "rate limited", location := none }

/-- An HTTP 404 response with no body. -/
def resp404 : HttpResponse := { status := 404, body := none, location := none }

/-- An HTTP 500 response. -/
def resp500 : HttpResponse :=
  { status := 500, body := some "server error", location := none }

/-- An HTTP 200 response. -/
def resp200 : HttpResponse := { status := 200, body := some "ok", location := none }

/-- A 3-page source with page sizes 50/50/17 (records are distinct numbers,
so duplicate-freedom is visible in the aggregate). -/
def pages3 : Nat → List Nat
  | 0 => List.range 50
  | 1 => (List.range 50).map (fun i => 50 + i)
  | 2 => (List.range 17).map (fun i => 100 + i)
  | _ => []

/-- The attribute-type-id configuration for the diagnostics theorems. -/
def cfgDiag : AttrTypeConfig :=
  { check_loaded_rows_attribute := "t-loaded"
    check_rows_failed_attribute := "t-failed"
    check_rows_passed_attribute := "t-passed"
    check_passing_fraction_attribute := "t-fraction" }

/-- A check that tested 100 rows of which none failed. -/
def chkAllPass : SodaCheckLite :=
  { name := "row_count_check"
    checkType := some "row_count"
    definition := none
    diagnostics := some [("dataset",
      .jobj [("checkRowsTested", .jint 100), ("failedRowsCount", .jint 0)])]
    attributes := [] }

/-- A check that tested 100 rows of which 5 failed. -/
def chkFiveFail : SodaCheckLite :=
  { name := "missing_check"
    checkType := some "missing"
    definition := none
    diagnostics := some [("dataset",
      .jobj [("checkRowsTested", .jint 100), ("failedRowsCount", .jint 5)])]
    attributes := [] }

/-- A check whose source reported no row-tested counts at all. -/
def chkNoDiag : SodaCheckLite :=
  { name := "schema_check"
    checkType := some "schema"
    definition := none
    diagnostics := none
    attributes := [] }

/-- An ownership environment: one table asset, one user owner and one group
owner; the user's email matches a monitoring-platform user, the group
expands to one matching and one unknown email. -/
def envOwnership : OwnershipEnv :=
  { tableAssets := [{ id := "table-1", name := "DWH.public.orders" }]
    responsibilities :=
      [{ id := "cu-1", resourceType := "User" },
        { id := "cg-1", resourceType := "UserGroup" }]
    userEmails := fun uid => if uid = "cu-1" then ["Alice@Corp.com"] else []
    groupEmails := fun gid =>
      if gid = "cg-1" then ["alice@corp.com", "bob@corp.com"] else []
    sodaUserSearch := fun term =>
      if pyLower term = "alice@corp.com" then
        [{ userId := "su-alice", email := "alice@CORP.com", fullName := "Alice" }]
      else [] }

/-! # Theorems -/

/-! ## Helper lemmas -/

theorem strAppend_assoc (a b c : String) : a ++ b ++ c = a ++ (b ++ c) := by
  apply String.ext
  simp [String.data_append]

theorem counterSuffix_one (base : String) :
    base ++ " (" ++ toString (1 : Nat) ++ ")" = base ++ " (1)" := by
  have h : toString (1 : Nat) = "1" := rfl
  rw [h]
  apply String.ext
  simp [String.data_append]

theorem counterSuffix_two (base : String) :
    base ++ " (" ++ toString (2 : Nat) ++ ")" = base ++ " (2)" := by
  have h : toString (2 : Nat) = "2" := rfl
  rw [h]
  apply String.ext
  simp [String.data_append]

theorem ne_append_of_length_pos (base suf : String) (h : suf.length ≠ 0) :
    base ≠ base ++ suf := by
  intro he
  have hl := congrArg String.length he
  rw [String.length_append] at hl
  omega

theorem disambiguateGo_stop (base : String) (seen : List String) (fuel : Nat)
    (name : String) (counter : Nat) (h : name ∉ seen) :
    disambiguateGo base seen (fuel + 1) name counter = name := by
  simp [disambiguateGo, h]

theorem disambiguateGo_step (base : String) (seen : List String) (fuel : Nat)
    (name : String) (counter : Nat) (h : name ∈ seen) :
    disambiguateGo base seen (fuel + 1) name counter =
      disambiguateGo base seen fuel
        (base ++ " (" ++ toString counter ++ ")") (counter + 1) := by
  simp [disambiguateGo, h]

/-! ## C7 — name determinism and collision disambiguation -/

/-- C7: `generate_asset_name` is deterministic — with a fresh empty
seen-names set it returns the base name built from its inputs alone, so two
calls with identical inputs and fresh sets agree — and disambiguates
collisions: when the base name is already seen it returns the `" (1)"`
variant, and when that is seen too, the `" (2)"` variant, the counter
incrementing through the candidates. -/
theorem generate_asset_name_deterministic_and_disambiguating
    (a : GenNameArgs) (seen : List String) :
    ((generate_asset_name a []).1 = baseAssetName a) ∧
    (baseAssetName a ∈ seen → baseAssetName a ++ " (1)" ∉ seen →
      (generate_asset_name a seen).1 = baseAssetName a ++ " (1)") ∧
    (baseAssetName a ∈ seen → baseAssetName a ++ " (1)" ∈ seen →
      baseAssetName a ++ " (2)" ∉ seen →
      (generate_asset_name a seen).1 = baseAssetName a ++ " (2)") := by
  refine ⟨?_, ?_, ?_⟩
  · simp [generate_asset_name, disambiguateGo]
  · intro h1 h2
    match seen, h1 with
    | x :: xs, h1 =>
      simp only [generate_asset_name, List.length_cons]
      rw [disambiguateGo_step _ _ _ _ _ h1, counterSuffix_one,
        disambiguateGo_stop _ _ _ _ _ h2]
  · intro h1 h2 h3
    match seen, h1 with
    | [x], h1 =>
      exfalso
      rw [List.mem_singleton] at h1 h2
      exact ne_append_of_length_pos (baseAssetName a) " (1)" (by decide)
        (h1.trans h2.symm)
    | x :: y :: ys, h1 =>
      simp only [generate_asset_name, List.length_cons]
      rw [disambiguateGo_step _ _ _ _ _ h1, counterSuffix_one,
        disambiguateGo_step _ _ _ _ _ h2, counterSuffix_two,
        disambiguateGo_stop _ _ _ _ _ h3]

/-- C7 witness: a concrete instantiation discharging every hypothesis. -/
theorem generate_asset_name_deterministic_and_disambiguating_witness :
    (generate_asset_name
      { check_name := "check_a", dataset_name := "orders",
        database := some "DWH", schema := some "public", column := none,
        envDatabase := envDwh }
      ["DWH-PUBLIC-ORDERS check_a", "DWH-PUBLIC-ORDERS check_a (1)"]).1 =
      "DWH-PUBLIC-ORDERS check_a" ++ " (2)" := by
  have h := (generate_asset_name_deterministic_and_disambiguating
    { check_name := "check_a", dataset_name := "orders",
      database := some "DWH", schema := some "public", column := none,
      envDatabase := envDwh }
    ["DWH-PUBLIC-ORDERS check_a", "DWH-PUBLIC-ORDERS check_a (1)"]).2.2
    (by decide) (by decide) (by decide)
  have hb : baseAssetName
      { check_name := "check_a", dataset_name := "orders",
        database := some "DWH", schema := some "public", column := none,
        envDatabase := envDwh } = "DWH-PUBLIC-ORDERS check_a" := by decide
  rw [hb] at h
  exact h

/-! ## C1 — deletion sync is an exact set difference -/

theorem assetsToDelete_eq_filter (desired : List String)
    (results : List AssetLite) (acc : List String) :
    results.foldl
        (fun acc asset =>
          if asset.name ∈ desired then acc else acc ++ [asset.id]) acc =
      acc ++ (results.filter
        (fun a => !decide (a.name ∈ desired))).map AssetLite.id := by
  induction results generalizing acc with
  | nil => simp
  | cons a rest ih =>
    by_cases h : a.name ∈ desired
    · simp [h, ih]
    · simp [h, ih]

/-- C1: among the assets returned by the suffix search, deletion sync
deletes exactly those whose name is not in the desired-name set generated
from the current check list, and leaves every asset whose name is desired
untouched (asset ids being distinct, as catalog ids are). -/
theorem syncCheckDeletions_exact_set_difference
    (env : Option String) (ds : DatasetLite) (checks : List CheckLite)
    (results : List AssetLite)
    (hids : (results.map AssetLite.id).Nodup) :
    ∀ a ∈ results,
      (a.id ∈ syncCheckDeletions env ds checks results ↔
        a.name ∉ desiredAssetNames env ds checks) := by
  intro a ha
  unfold syncCheckDeletions assetsToDelete
  rw [assetsToDelete_eq_filter]
  rw [List.nil_append]
  constructor
  · intro hid
    rcases List.mem_map.mp hid with ⟨b, hbmem, hbid⟩
    rcases List.mem_filter.mp hbmem with ⟨hbres, hbname⟩
    have hba : b = a :=
      List.inj_on_of_nodup_map hids hbres ha hbid
    rw [← hba]
    simpa using hbname
  · intro hname
    exact List.mem_map.mpr ⟨a, List.mem_filter.mpr ⟨ha, by simpa using hname⟩, rfl⟩

/-- C1 witness: for existing assets `{A, B, C}` and live checks generating
the desired set `{A, C}`, the deletion decision contains `B` and spares `A`
and `C`; concretely the deleted id list is exactly `["id-b"]`. -/
theorem syncCheckDeletions_exact_set_difference_witness :
    (resultsABC.map AssetLite.id).Nodup ∧
    (assetB.id ∈ syncCheckDeletions envDwh dsOrders checksAC resultsABC ↔
      assetB.name ∉ desiredAssetNames envDwh dsOrders checksAC) ∧
    syncCheckDeletions envDwh dsOrders checksAC resultsABC = ["id-b"] := by
  refine ⟨by decide, ?_, by decide⟩
  exact syncCheckDeletions_exact_set_difference envDwh dsOrders checksAC
    resultsABC (by decide) assetB (by decide)

/-! ## C6 — pagination completeness -/

theorem handlePaginationGo_items (fetch : Nat → Option (List α))
    (contents : Nat → List α) (n : Nat) :
    ∀ (page : Nat) (acc : List α) (sleeps : Nat),
      (∀ i, page < i → i ≤ page + n → fetch i = some (contents i)) →
      (handlePaginationGo fetch n page acc sleeps).1 =
        acc ++ pagesConcat contents (page + 1) n := by
  induction n with
  | zero => intro page acc sleeps _; simp [handlePaginationGo, pagesConcat]
  | succ m ih =>
    intro page acc sleeps h
    have hstep : fetch (page + 1) = some (contents (page + 1)) :=
      h (page + 1) (by omega) (by omega)
    simp only [handlePaginationGo, hstep]
    rw [ih (page + 1) (acc ++ contents (page + 1)) _
      (fun i hi1 hi2 => h i (by omega) (by omega))]
    rw [pagesConcat, List.append_assoc]

theorem handlePaginationGo_sleeps (fetch : Nat → Option (List α))
    (contents : Nat → List α) (n : Nat) :
    ∀ (page : Nat) (acc : List α) (sleeps : Nat),
      (∀ i, page < i → i ≤ page + n → fetch i = some (contents i)) →
      (handlePaginationGo fetch n page acc sleeps).2 =
        sleeps + ((List.range' (page + 1) n).filter
          (fun i => i % 10 = 0)).length := by
  induction n with
  | zero => intro page acc sleeps _; simp [handlePaginationGo]
  | succ m ih =>
    intro page acc sleeps h
    have hstep : fetch (page + 1) = some (contents (page + 1)) :=
      h (page + 1) (by omega) (by omega)
    simp only [handlePaginationGo, hstep]
    rw [ih (page + 1) _ _ (fun i hi1 hi2 => h i (by omega) (by omega))]
    rw [List.range'_succ]
    by_cases hdiv : (page + 1) % 10 = 0
    · simp [hdiv]; omega
    · simp [hdiv]

theorem pagesConcat_count [DecidableEq α] (contents : Nat → List α) (x : α)
    (cnt : Nat) :
    ∀ start, (pagesConcat contents start cnt).count x =
      ((List.range cnt).map (fun k => (contents (start + k)).count x)).sum := by
  induction cnt with
  | zero => intro start; simp [pagesConcat]
  | succ m ih =>
    intro start
    rw [pagesConcat, List.count_append, List.range_succ_eq_map]
    simp only [List.map_cons, List.map_map, List.sum_cons, Nat.add_zero]
    rw [ih (start + 1)]
    have hmap : (List.range m).map (fun k => List.count x (contents (start + 1 + k))) =
        (List.range m).map ((fun k => List.count x (contents (start + k))) ∘ Nat.succ) := by
      apply List.map_congr_left
      intro k _
      have harg : start + 1 + k = start + Nat.succ k := by omega
      simp [Function.comp, harg]
    rw [hmap]

/-- C6: when every subsequent page responds, `_handle_pagination` aggregates
the pages in order until the reported total-pages count is exhausted —
the result is exactly the concatenation of all pages, so every source record
appears exactly as often as in its page (no duplicates, no drops) — and it
pauses exactly on the fetched pages whose index is a multiple of 10. -/
theorem handlePagination_complete {α : Type} [DecidableEq α]
    (contents : Nat → List α) (fetch : Nat → Option (List α))
    (totalPages : Nat) (hTot : 0 < totalPages)
    (hFetch : ∀ i, 0 < i → i < totalPages → fetch i = some (contents i)) :
    (handlePagination (contents 0) totalPages fetch).1 =
      pagesConcat contents 0 totalPages ∧
    (∀ x, (handlePagination (contents 0) totalPages fetch).1.count x =
      ((List.range totalPages).map (fun i => (contents i).count x)).sum) ∧
    (handlePagination (contents 0) totalPages fetch).2 =
      ((List.range' 1 (totalPages - 1)).filter (fun i => i % 10 = 0)).length := by
  obtain ⟨m, rfl⟩ : ∃ m, totalPages = m + 1 :=
    ⟨totalPages - 1, by omega⟩
  have hmain : (handlePagination (contents 0) (m + 1) fetch).1 =
      pagesConcat contents 0 (m + 1) := by
    unfold handlePagination
    have hn : m + 1 - 1 = m := by omega
    rw [hn]
    rw [handlePaginationGo_items fetch contents m 0 (contents 0) 0
      (fun i hi1 hi2 => hFetch i (by omega) (by omega))]
    rw [pagesConcat]
  refine ⟨hmain, ?_, ?_⟩
  · intro x
    rw [hmain]
    simpa using pagesConcat_count contents x (m + 1) 0
  · unfold handlePagination
    have hn : m + 1 - 1 = m := by omega
    rw [hn]
    rw [handlePaginationGo_sleeps fetch contents m 0 (contents 0) 0
      (fun i hi1 hi2 => hFetch i (by omega) (by omega))]
    simp

/-- C6 witness: the mocked 3-page source with page sizes 50/50/17 aggregates
to exactly 117 records, and an arbitrary record (record 57 of page 1)
appears exactly once. -/
theorem handlePagination_complete_witness :
    (handlePagination (pages3 0) 3 (fun i => some (pages3 i))).1.length = 117 ∧
    (handlePagination (pages3 0) 3 (fun i => some (pages3 i))).1.count 57 = 1 := by
  have h := handlePagination_complete pages3 (fun i => some (pages3 i)) 3
    (by decide) (fun i _ _ => rfl)
  constructor
  · rw [h.1]; decide
  · rw [h.2.1 57]; decide

/-! ## C4 — the source client raises on 429 instead of backing off

`execute_request` calls `response.raise_for_status()` before its 401/429
branches, so any 429 raises `requests.exceptions.HTTPError` immediately: the
back-off-and-retry code (delays 15s, then 30s on a marked retry) below it is
unreachable. The spec describes that unreachable branch's behaviour. -/

/-- C4 (divergence): a 429 response makes `execute_request` raise the
`HTTPError` from `raise_for_status` after a single request, taking no
back-off sleep and issuing no retry — for any subsequent responses and
whether or not the call was already marked as a retry. -/
theorem sodaExecuteRequest_raises_on_429 (r : HttpResponse)
    (hr : r.status = 429) (rest : List HttpResponse) (is_retry : Bool) :
    sodaExecuteRequest (r :: rest) is_retry =
      (SodaReqResult.raisedHTTP 429, 1, 0) := by
  simp [sodaExecuteRequest, hr]

/-- C4 witness: the concrete 429 response. -/
theorem sodaExecuteRequest_raises_on_429_witness :
    sodaExecuteRequest [resp429] false = (SodaReqResult.raisedHTTP 429, 1, 0) ∧
    sodaExecuteRequest [resp429] true = (SodaReqResult.raisedHTTP 429, 1, 0) := by
  exact ⟨sodaExecuteRequest_raises_on_429 resp429 rfl [] false,
    sodaExecuteRequest_raises_on_429 resp429 rfl [] true⟩

/-! ## C5 — idempotent bulk delete -/

theorem deleteBulkAssets_cons_404 (ids : List String) (hids : ids ≠ [])
    (r : HttpResponse) (rest : List HttpResponse) (hr : r.status = 404) :
    deleteBulkAssets ids (r :: rest) =
      (DeleteResult.success none, [LogLevel.debug, LogLevel.info]) := by
  unfold deleteBulkAssets
  rw [if_neg hids, if_pos hr]

theorem deleteBulkAssets_cons_plain (ids : List String) (hids : ids ≠ [])
    (r : HttpResponse) (rest : List HttpResponse) (h404 : ¬ r.status = 404)
    (hredir : ¬ r.status ∈ [301, 302, 303, 307, 308]) :
    deleteBulkAssets ids (r :: rest) =
      deleteBulkTail r (deleteBulkAssets ids rest) [.debug] := by
  unfold deleteBulkAssets
  rw [if_neg hids, if_neg h404, if_neg hredir]
  congr 1
  cases rest with
  | nil => rfl
  | cons r2 rest2 =>
    cases rest2
    · rfl
    · rfl

/-- C5: a bulk delete of a non-empty id list answered with a 404 returns
success with no exception, logging only at debug/info level; answered with a
500 it raises an `HTTPError`. -/
theorem deleteBulkAssets_404_success_500_raises
    (ids : List String) (hids : ids ≠ []) (rest : List HttpResponse) :
    (deleteBulkAssets ids (resp404 :: rest) =
      (DeleteResult.success none, [LogLevel.debug, LogLevel.info])) ∧
    (deleteBulkAssets ids (resp500 :: rest) =
      (DeleteResult.raisedHTTP 500, [LogLevel.debug])) := by
  constructor
  · exact deleteBulkAssets_cons_404 ids hids resp404 rest rfl
  · rw [deleteBulkAssets_cons_plain ids hids resp500 rest (by decide)
      (by decide)]
    rfl

/-- C5 witness: two already-deleted ids → success; a failing backend →
raised error. -/
theorem deleteBulkAssets_404_success_500_raises_witness :
    (deleteBulkAssets ["id-1", "id-2"] [resp404] =
      (DeleteResult.success none, [LogLevel.debug, LogLevel.info])) ∧
    (deleteBulkAssets ["id-1", "id-2"] [resp500] =
      (DeleteResult.raisedHTTP 500, [LogLevel.debug])) := by
  exact ⟨(deleteBulkAssets_404_success_500_raises ["id-1", "id-2"]
      (by decide) []).1,
    (deleteBulkAssets_404_success_500_raises ["id-1", "id-2"]
      (by decide) []).2⟩

/-! ## C3 — partial-batch tolerance: create yes, update no -/

/-- C3 counterexample: a bulk attribute *update* answered with the
structured `attTypeNotFoundId` 404 re-raises the error — it does not strip
items and retry, and it does not return any (empty or partial) result, so
the claim that update tolerates this 404 like create does is false. -/
theorem changeAttributesBulk_404_counterexample :
    changeAttributesBulk backendUnknownTypeUpd updItems = .raised 404 ∧
    ∀ updated, changeAttributesBulk backendUnknownTypeUpd updItems ≠
      BulkResult.ok updated := by
  refine ⟨rfl, ?_⟩
  intro updated h
  rw [(rfl : changeAttributesBulk backendUnknownTypeUpd updItems =
    .raised 404)] at h
  cases h

theorem addAttributesBulk_cons
    (backend : List AttributeCreateRequest → BulkResponse) (fuel : Nat)
    (a : AttributeCreateRequest) (as : List AttributeCreateRequest) :
    addAttributesBulk backend (fuel + 1) (a :: as) =
      (match backend (a :: as) with
      | .ok created => .ok created
      | .httpError 404 (some errBody) =>
        if errBody.errorCode = "attTypeNotFoundId" then
          match errBody.propertiesId with
          | some missingTypeId =>
            let remaining :=
              (a :: as).filter (fun x => x.typeId ≠ missingTypeId)
            if remaining = [] then .ok []
            else addAttributesBulk backend fuel remaining
          | none => .raised 404
        else .raised 404
      | .httpError status _ => .raised status) := rfl

theorem addAttributesBulk_cons_notFound
    (backend : List AttributeCreateRequest → BulkResponse) (fuel : Nat)
    (a : AttributeCreateRequest) (as : List AttributeCreateRequest)
    (tid : String)
    (hback : backend (a :: as) = .httpError 404
      (some { errorCode := "attTypeNotFoundId", propertiesId := some tid })) :
    addAttributesBulk backend (fuel + 1) (a :: as) =
      (if (a :: as).filter (fun x => x.typeId ≠ tid) = [] then .ok []
       else addAttributesBulk backend fuel
        ((a :: as).filter (fun x => x.typeId ≠ tid))) := by
  rw [addAttributesBulk_cons, hback]
  rfl

theorem addAttributesBulk_cons_ok
    (backend : List AttributeCreateRequest → BulkResponse) (fuel : Nat)
    (a : AttributeCreateRequest) (as : List AttributeCreateRequest)
    (created : List String) (hback : backend (a :: as) = .ok created) :
    addAttributesBulk backend (fuel + 1) (a :: as) = .ok created := by
  rw [addAttributesBulk_cons, hback]

/-- C3 (amended): bulk attribute *creation* tolerates the
`attTypeNotFoundId` 404 — against a backend that rejects any batch
containing the offending type id and accepts any other batch, the call
strips the items referencing that type and succeeds with the remainder
(empty result when nothing remains) — while bulk attribute *update*
re-raises every error response. -/
theorem addAttributesBulk_tolerates_type_not_found
    (backend : List AttributeCreateRequest → BulkResponse)
    (f : List AttributeCreateRequest → List String) (tid : String)
    (items : List AttributeCreateRequest)
    (hBad : ∀ reqs, (∃ r ∈ reqs, r.typeId = tid) →
      backend reqs = .httpError 404
        (some { errorCode := "attTypeNotFoundId", propertiesId := some tid }))
    (hGood : ∀ reqs, (¬ ∃ r ∈ reqs, r.typeId = tid) →
      backend reqs = .ok (f reqs))
    (hHasBad : ∃ r ∈ items, r.typeId = tid) :
    (addAttributesBulk backend (items.length + 1) items =
      (if (items.filter (fun a => a.typeId ≠ tid)) = [] then .ok []
       else .ok (f (items.filter (fun a => a.typeId ≠ tid))))) ∧
    (∀ (backendU : List AttributeUpdateRequest → BulkResponse)
        (uitems : List AttributeUpdateRequest) (status : Nat)
        (body : Option CollibraErrorBody),
      backendU uitems = .httpError status body →
      changeAttributesBulk backendU uitems = .raised status) := by
  constructor
  · obtain ⟨r0, hr0mem, hr0⟩ := hHasBad
    have hne : items ≠ [] := by
      intro h
      rw [h] at hr0mem
      cases hr0mem
    obtain ⟨a, as, rfl⟩ := List.exists_cons_of_ne_nil hne
    rw [addAttributesBulk_cons_notFound backend ((a :: as).length) a as tid
      (hBad (a :: as) ⟨r0, hr0mem, hr0⟩)]
    by_cases hempty : (a :: as).filter (fun x => x.typeId ≠ tid) = []
    · rw [if_pos hempty, if_pos hempty]
    · rw [if_neg hempty, if_neg hempty]
      have hGoodRem : backend ((a :: as).filter (fun x => x.typeId ≠ tid)) =
          .ok (f ((a :: as).filter (fun x => x.typeId ≠ tid))) := by
        apply hGood
        rintro ⟨r, hrmem, hrtid⟩
        have hmem := List.of_mem_filter hrmem
        simp only [decide_eq_true_eq] at hmem
        exact hmem hrtid
      obtain ⟨b, bs, hbs⟩ := List.exists_cons_of_ne_nil hempty
      simp only [List.length_cons]
      rw [hbs]
      exact addAttributesBulk_cons_ok backend as.length b bs (f (b :: bs))
        (by rw [← hbs]; exact hGoodRem)
  · intro backendU uitems status body h
    simp [changeAttributesBulk, h]

/-- C3 witness: a create-bulk call for 3 attributes where one references an
unknown type succeeds for the other 2 and omits the third. -/
theorem addAttributesBulk_tolerates_type_not_found_witness :
    addAttributesBulk backendUnknownType (attrsOneUnknown.length + 1)
        attrsOneUnknown =
      (if (attrsOneUnknown.filter
            (fun a => a.typeId ≠ "type-missing")) = [] then .ok []
       else .ok ((attrsOneUnknown.filter
          (fun a => a.typeId ≠ "type-missing")).map
            (fun a => a.assetId ++ ":attr"))) ∧
    addAttributesBulk backendUnknownType 4 attrsOneUnknown =
      .ok ["asset-1:attr", "asset-3:attr"] := by
  constructor
  · exact (addAttributesBulk_tolerates_type_not_found backendUnknownType
      (fun reqs => reqs.map (fun a => a.assetId ++ ":attr")) "type-missing"
      attrsOneUnknown
      (by
        intro reqs h
        obtain ⟨r, hrmem, hrtid⟩ := h
        have hany : reqs.any (fun a => a.typeId = "type-missing") = true :=
          List.any_eq_true.mpr ⟨r, hrmem, by simp [hrtid]⟩
        simp [backendUnknownType, hany, errUnknownAttrType])
      (by
        intro reqs h
        have hany : reqs.any (fun a => a.typeId = "type-missing") = false := by
          rw [List.any_eq_false]
          intro r hrmem
          simp only [decide_eq_true_eq]
          intro htid
          exact h ⟨r, hrmem, htid⟩
        simp [backendUnknownType, hany])
      (by decide)).1
  · decide

/-! ## C2 — threshold normalization -/

theorem pyFloat_nonneg_iff (x : PyFloat) : 0 ≤ x.mant ↔ 0 ≤ x.val := by
  have hpos : (0 : ℚ) < (10 : ℚ) ^ x.scale := by positivity
  rw [PyFloat.val, le_div_iff₀ hpos]
  simp

theorem pyFloat_le100_iff (x : PyFloat) :
    x.mant ≤ 100 * 10 ^ x.scale ↔ x.val ≤ 100 := by
  have hpos : (0 : ℚ) < (10 : ℚ) ^ x.scale := by positivity
  rw [PyFloat.val, div_le_iff₀ hpos]
  constructor
  · intro h
    calc (x.mant : ℚ) ≤ ((100 * 10 ^ x.scale : ℤ) : ℚ) := by exact_mod_cast h
    _ = 100 * (10 : ℚ) ^ x.scale := by push_cast; ring
  · intro h
    have h2 : (x.mant : ℚ) ≤ ((100 * 10 ^ x.scale : ℤ) : ℚ) := by
      calc (x.mant : ℚ) ≤ 100 * (10 : ℚ) ^ x.scale := h
      _ = ((100 * 10 ^ x.scale : ℤ) : ℚ) := by push_cast; ring
    exact_mod_cast h2

theorem thresholdDecimalString_spec (check : SodaCheckLite)
    (tv sv : String) (v : PyFloat)
    (hex : extract_threshold_value check = some tv)
    (hsan : sanitize_threshold_value tv = some sv)
    (hfl : pyFloatParse sv = some v) :
    thresholdDecimalString check =
      (if (is_percentage_threshold check ||
            checkTypeSuggestsPercent check.checkType) = true then
        (if 0 ≤ v.mant ∧ v.mant ≤ 100 * 10 ^ v.scale then
          some (pyFormatTrim10 { mant := v.mant, scale := v.scale + 2 })
        else none)
      else none) := by
  have htv : ¬ tv = "" := by
    intro h
    rw [h] at hsan
    simp [sanitize_threshold_value] at hsan
  have hsv : ¬ sv = "" := by
    intro h
    rw [h, (rfl : pyFloatParse "" = none)] at hfl
    cases hfl
  simp [thresholdDecimalString, hex, htv, hsan, hsv, hfl]

/-- C2: for a percentage-based threshold the engine validates the extracted
numeric value against [0, 100] and emits the decimal string `value/100`
trimmed of trailing zeros, and emits nothing when the value is out of range:
concretely, threshold `5` with `metric: percent` present yields the
attribute value `"0.05"` and threshold `150` yields no threshold attribute
at all; in general, whenever extraction, sanitization and float conversion
succeed, an out-of-range value emits no attribute and an in-range value of a
percentage-classified check emits exactly the trimmed decimal string of
`value/100`. -/
theorem threshold_normalization_spec :
    (∀ tid, add_custom_attributes [("threshold", tid)] chkPct5 [] =
      [(tid, JVal.jstr "0.05")]) ∧
    (∀ tid, add_custom_attributes [("threshold", tid)] chkPct150 [] = []) ∧
    (∀ (check : SodaCheckLite) (tid tv sv : String) (v : PyFloat),
      extract_threshold_value check = some tv →
      sanitize_threshold_value tv = some sv →
      pyFloatParse sv = some v →
      ¬ (0 ≤ v.val ∧ v.val ≤ 100) →
      add_custom_attributes [("threshold", tid)] check [] = []) ∧
    (∀ (check : SodaCheckLite) (tid tv sv : String) (v : PyFloat),
      extract_threshold_value check = some tv →
      sanitize_threshold_value tv = some sv →
      pyFloatParse sv = some v →
      (0 ≤ v.val ∧ v.val ≤ 100) →
      (is_percentage_threshold check ||
        checkTypeSuggestsPercent check.checkType) = true →
      add_custom_attributes [("threshold", tid)] check [] =
        [(tid, JVal.jstr
          (pyFormatTrim10 { mant := v.mant, scale := v.scale + 2 }))]) := by
  refine ⟨?_, ?_, ?_, ?_⟩
  · intro tid
    have h : thresholdDecimalString chkPct5 = some "0.05" := by rfl
    simp [add_custom_attributes, h]
  · intro tid
    have h : thresholdDecimalString chkPct150 = none := by rfl
    simp [add_custom_attributes, h]
  · intro check tid tv sv v hex hsan hfl hnr
    have hspec := thresholdDecimalString_spec check tv sv v hex hsan hfl
    have hcode : ¬ (0 ≤ v.mant ∧ v.mant ≤ 100 * 10 ^ v.scale) := by
      intro hc
      exact hnr ⟨(pyFloat_nonneg_iff v).mp hc.1, (pyFloat_le100_iff v).mp hc.2⟩
    rw [if_neg hcode] at hspec
    have hnone : thresholdDecimalString check = none := by
      rw [hspec]
      exact ite_self none
    simp [add_custom_attributes, hnone]
  · intro check tid tv sv v hex hsan hfl hr hpct
    have hspec := thresholdDecimalString_spec check tv sv v hex hsan hfl
    have hcode : 0 ≤ v.mant ∧ v.mant ≤ 100 * 10 ^ v.scale :=
      ⟨(pyFloat_nonneg_iff v).mpr hr.1, (pyFloat_le100_iff v).mpr hr.2⟩
    rw [if_pos hcode, hpct, if_pos rfl] at hspec
    simp [add_custom_attributes, hspec]

/-- C2 witness: the general parts instantiated — threshold 150 (in-range
check fails) emits nothing; threshold 5 from a multi-line YAML definition
with `metric: percent` emits exactly `"0.05"`. -/
theorem threshold_normalization_spec_witness :
    add_custom_attributes [("threshold", "tid-x")] chkPct150 [] = [] ∧
    add_custom_attributes [("threshold", "tid-x")] chkDefPct5 [] =
      [("tid-x", JVal.jstr "0.05")] := by
  constructor
  · exact threshold_normalization_spec.2.2.1 chkPct150 "tid-x" "150" "150"
      { mant := 150, scale := 0 } rfl rfl rfl
      (by
        intro hc
        have := hc.2
        rw [PyFloat.val] at this
        norm_num at this)
  · have h := threshold_normalization_spec.2.2.2 chkDefPct5 "tid-x" "5" "5"
      { mant := 5, scale := 0 } rfl rfl rfl
      (by constructor <;> (rw [PyFloat.val]; norm_num)) rfl
    have hfmt : pyFormatTrim10
        { mant := ({ mant := 5, scale := 0 } : PyFloat).mant,
          scale := ({ mant := 5, scale := 0 } : PyFloat).scale + 2 } =
        "0.05" := by rfl
    rw [h, hfmt]

/-! ## C8 — diagnostic row-count attributes -/

/-- C8 counterexample: a check whose diagnostics report 100 rows tested, 0
failed, gets only the loaded-rows attribute — the failed-rows, passed-rows
and passing-fraction attributes are not emitted although the rows-tested
count is positive (the latter two sit inside the `failed_rows_count > 0`
branch), refuting the claim that all four are emitted exactly when
rows-tested is positive. -/
theorem add_diagnostic_attributes_counterexample :
    (add_diagnostic_attributes cfgDiag chkAllPass []).map Prod.fst =
      ["t-loaded"] ∧
    "t-failed" ∉ (add_diagnostic_attributes cfgDiag chkAllPass []).map Prod.fst ∧
    "t-passed" ∉ (add_diagnostic_attributes cfgDiag chkAllPass []).map Prod.fst ∧
    "t-fraction" ∉
      (add_diagnostic_attributes cfgDiag chkAllPass []).map Prod.fst ∧
    0 < (extractDiagCounts chkAllPass.diagnostics).2 := by
  decide

/-- C8 (amended): the loaded-rows attribute is emitted iff the diagnostics
report a positive rows-tested count; the failed-rows, passed-rows and
passing-fraction attributes are emitted iff additionally the failed-rows
count is positive (in which case their values are the failed count, the
difference, and the percentage string with two decimals); and nothing is
emitted when no rows-tested count was reported. -/
theorem add_diagnostic_attributes_emission (cfg : AttrTypeConfig)
    (check : SodaCheckLite)
    (hnd : ([cfg.check_loaded_rows_attribute, cfg.check_rows_failed_attribute,
      cfg.check_rows_passed_attribute,
      cfg.check_passing_fraction_attribute] : List String).Nodup) :
    (cfg.check_loaded_rows_attribute ∈
        (add_diagnostic_attributes cfg check []).map Prod.fst ↔
      0 < (extractDiagCounts check.diagnostics).2) ∧
    (cfg.check_rows_failed_attribute ∈
        (add_diagnostic_attributes cfg check []).map Prod.fst ↔
      0 < (extractDiagCounts check.diagnostics).2 ∧
        0 < (extractDiagCounts check.diagnostics).1) ∧
    (cfg.check_rows_passed_attribute ∈
        (add_diagnostic_attributes cfg check []).map Prod.fst ↔
      0 < (extractDiagCounts check.diagnostics).2 ∧
        0 < (extractDiagCounts check.diagnostics).1) ∧
    (cfg.check_passing_fraction_attribute ∈
        (add_diagnostic_attributes cfg check []).map Prod.fst ↔
      0 < (extractDiagCounts check.diagnostics).2 ∧
        0 < (extractDiagCounts check.diagnostics).1) ∧
    ((extractDiagCounts check.diagnostics).2 ≤ 0 →
      add_diagnostic_attributes cfg check [] = []) ∧
    (0 < (extractDiagCounts check.diagnostics).2 →
      0 < (extractDiagCounts check.diagnostics).1 →
      add_diagnostic_attributes cfg check [] =
        [(cfg.check_loaded_rows_attribute,
            .jint (extractDiagCounts check.diagnostics).2),
          (cfg.check_rows_failed_attribute,
            .jint (extractDiagCounts check.diagnostics).1),
          (cfg.check_rows_passed_attribute,
            .jint ((extractDiagCounts check.diagnostics).2 -
              (extractDiagCounts check.diagnostics).1)),
          (cfg.check_passing_fraction_attribute,
            .jstr (pyFormatFixed 2
              (((extractDiagCounts check.diagnostics).2 -
                (extractDiagCounts check.diagnostics).1) * 100)
              (extractDiagCounts check.diagnostics).2))]) := by
  simp only [List.nodup_cons, List.mem_cons, List.mem_singleton,
    List.not_mem_nil, or_false, not_or, List.nodup_nil, and_true] at hnd
  obtain ⟨⟨hLF, hLP, hLFr⟩, ⟨hFP, hFFr⟩, hPFr⟩ := hnd
  by_cases ht : 0 < (extractDiagCounts check.diagnostics).2
  · by_cases hf : 0 < (extractDiagCounts check.diagnostics).1
    · refine ⟨?_, ?_, ?_, ?_, ?_, ?_⟩ <;>
        simp [add_diagnostic_attributes, ht, hf]
    · refine ⟨?_, ?_, ?_, ?_, ?_, ?_⟩ <;>
        simp [add_diagnostic_attributes, ht, hf] <;>
        first
        | (exact fun h => absurd h.symm hLF)
        | (exact fun h => absurd h.symm hLP)
        | (exact fun h => absurd h.symm hLFr)
  · refine ⟨?_, ?_, ?_, ?_, ?_, ?_⟩ <;>
      simp [add_diagnostic_attributes, ht]

/-- C8 witness: a check with 100 rows tested and 5 failed emits all four
attributes with the expected values (passing fraction `"95.00"`). -/
theorem add_diagnostic_attributes_emission_witness :
    (["t-loaded", "t-failed", "t-passed", "t-fraction"] : List String).Nodup ∧
    add_diagnostic_attributes cfgDiag chkFiveFail [] =
      [("t-loaded", .jint 100), ("t-failed", .jint 5), ("t-passed", .jint 95),
        ("t-fraction", .jstr "95.00")] := by
  refine ⟨by decide, ?_⟩
  have h := (add_diagnostic_attributes_emission cfgDiag chkFiveFail
    (by decide)).2.2.2.2.2 (by decide) (by decide)
  rw [h]
  rfl

/-! ## C9 — ownership synchronization -/

theorem mapOwners_fst_nodup (env : OwnershipEnv) (owners : List OwnerRef) :
    (mapCollibraOwnersToSodaUsers env owners).1.Nodup := by
  simp only [mapCollibraOwnersToSodaUsers]
  exact List.nodup_dedup _

/-- C9: ownership sync collects the matched source-user ids deduplicated,
records one per-dataset error per unmatched owner email, and pushes a
replace-all owner update if and only if at least one email matched — the
pushed list being exactly the resolved matched set, one `"user"`-typed owner
entry per matched id. -/
theorem ownership_sync_spec (env : OwnershipEnv) :
    (synchronize_dataset_ownership env).matchedIds.Nodup ∧
    ((synchronize_dataset_ownership env).pushed.isSome ↔
      (synchronize_dataset_ownership env).matchedIds ≠ []) ∧
    (∀ l, (synchronize_dataset_ownership env).pushed = some l →
      l = (synchronize_dataset_ownership env).matchedIds.map
        (fun uid => ("user", uid))) ∧
    (∀ e ∈ (synchronize_dataset_ownership env).missingEmails,
      ("No Soda user found with email: " ++ e) ∈
        (synchronize_dataset_ownership env).errors) := by
  unfold synchronize_dataset_ownership
  cases hfind : findCollibraAssetForDataset env with
  | none => simp
  | some aid =>
    by_cases hresp : env.responsibilities = []
    · simp [hresp]
    · simp only [hresp, if_false]
      by_cases hmatch : (mapCollibraOwnersToSodaUsers env
          env.responsibilities).1 = []
      · simp only [hmatch, if_pos rfl]
        refine ⟨List.nodup_nil, by simp, by simp, ?_⟩
        intro e he
        apply List.mem_append_left
        exact List.mem_map.mpr ⟨e, he, rfl⟩
      · simp only [if_neg hmatch]
        refine ⟨mapOwners_fst_nodup env env.responsibilities, ?_, ?_, ?_⟩
        · simp [hmatch]
        · intro l hl
          simpa using hl.symm
        · intro e he
          exact List.mem_map.mpr ⟨e, he, rfl⟩

/-- C9 witness: the concrete environment — two owners resolving to emails
`Alice@Corp.com` (matched, twice, deduplicated) and `bob@corp.com`
(unmatched, recorded as an error) — pushes exactly one `"user"`-typed owner
entry. -/
theorem ownership_sync_spec_witness :
    ((synchronize_dataset_ownership envOwnership).pushed.isSome ↔
      (synchronize_dataset_ownership envOwnership).matchedIds ≠ []) ∧
    ([("user", "su-alice")] =
      (synchronize_dataset_ownership envOwnership).matchedIds.map
        (fun uid => ("user", uid))) ∧
    ("No Soda user found with email: " ++ "bob@corp.com") ∈
      (synchronize_dataset_ownership envOwnership).errors := by
  refine ⟨(ownership_sync_spec envOwnership).2.1, ?_, ?_⟩
  · exact (ownership_sync_spec envOwnership).2.2.1 [("user", "su-alice")] rfl
  · exact (ownership_sync_spec envOwnership).2.2.2 "bob@corp.com" (by decide)

/-! ## C10 — the domain-mapping parser -/

/-- C10 counterexample: `"[1, 2]"` is valid JSON, so `get_domain_mappings`
returns the parsed value unchanged — a list, not a dictionary — refuting
the claim that every input yields a dictionary. -/
theorem get_domain_mappings_counterexample :
    get_domain_mappings "[1, 2]" = JVal.jarr [JVal.jint 1, JVal.jint 2] ∧
    (get_domain_mappings "[1, 2]").isDict = false := by
  exact ⟨rfl, rfl⟩

/-- C10 (amended): `get_domain_mappings` never raises — an empty or
whitespace-only string and a string that is not valid JSON both yield the
empty dict, so a malformed configuration never aborts the run — but a valid
JSON document is returned as parsed, which is a dictionary only when the
document is a JSON object. -/
theorem get_domain_mappings_total_spec :
    (∀ s, pyStrip s = "" → get_domain_mappings s = JVal.jobj []) ∧
    (∀ s, jsonLoads s = none → get_domain_mappings s = JVal.jobj []) ∧
    (∀ s v, jsonLoads s = some v → pyStrip s ≠ "" →
      get_domain_mappings s = v) := by
  refine ⟨?_, ?_, ?_⟩
  · intro s h
    simp [get_domain_mappings, h]
  · intro s h
    by_cases hs : s = "" ∨ pyStrip s = ""
    · simp [get_domain_mappings, hs]
    · simp [get_domain_mappings, hs, h]
  · intro s v hjson hstrip
    have hs : ¬ (s = "" ∨ pyStrip s = "") := by
      rintro (h | h)
      · exact hstrip (by rw [h]; rfl)
      · exact hstrip h
    simp [get_domain_mappings, hs, hjson]

/-- C10 witness: whitespace-only, malformed, and well-formed-object inputs. -/
theorem get_domain_mappings_total_spec_witness :
    get_domain_mappings "   " = JVal.jobj [] ∧
    get_domain_mappings "not json" = JVal.jobj [] ∧
    get_domain_mappings " \x7b\"a\": \"b\"\x7d " =
      JVal.jobj [("a", JVal.jstr "b")] := by
  refine ⟨?_, ?_, ?_⟩
  · exact get_domain_mappings_total_spec.1 "   " rfl
  · exact get_domain_mappings_total_spec.2.1 "not json" rfl
  · exact get_domain_mappings_total_spec.2.2 " \x7b\"a\": \"b\"\x7d "
      (JVal.jobj [("a", JVal.jstr "b")]) rfl (by decide)

/-! ## Standalone evaluation checks

Closed evaluations of the embedded functions on the concrete instances,
cross-checked against the behaviour of the original Python functions. -/

theorem desiredAssetNames_concrete :
    desiredAssetNames envDwh dsOrders checksAC =
      ["DWH-PUBLIC-ORDERS check_a", "DWH-PUBLIC-ORDERS check_c"] := by
  decide

theorem syncCheckDeletions_concrete :
    syncCheckDeletions envDwh dsOrders checksAC resultsABC = ["id-b"] := by
  decide

theorem extractDatabaseAndSchema_concrete :
    extractDatabaseAndSchema envDwh dsOrders = ("DWH", "PUBLIC") ∧
    extractDatabaseAndSchema envDwh
        { name := "x", qualifiedName := none,
          datasourceName := some "data_platform_raw" } = ("DWH", "RAW") ∧
    extractDatabaseAndSchema envDwh
        { name := "x", qualifiedName := none, datasourceName := none } =
      ("DWH", "UNKNOWN") := by
  decide

theorem extract_threshold_value_definition_concrete :
    extract_threshold_value chkDefPct5 = some "5" ∧
    is_percentage_threshold chkDefPct5 = true := by
  constructor
  · rfl
  · rfl

theorem pyFormatTrim10_concrete :
    pyFormatTrim10 { mant := 5, scale := 2 } = "0.05" ∧
    pyFormatTrim10 { mant := 0, scale := 2 } = "0" ∧
    pyFormatTrim10 { mant := 100, scale := 2 } = "1" ∧
    pyFormatTrim10 { mant := 125, scale := 3 } = "0.125" := by
  refine ⟨rfl, rfl, rfl, rfl⟩

theorem sanitize_threshold_value_concrete :
    sanitize_threshold_value "> 5" = some "5" ∧
    sanitize_threshold_value "abc" = none := by
  exact ⟨rfl, rfl⟩

theorem add_diagnostic_attributes_no_diag_concrete :
    add_diagnostic_attributes cfgDiag chkNoDiag [] = [] := by
  rfl

theorem synchronize_dataset_ownership_concrete :
    synchronize_dataset_ownership envOwnership =
      { errors := ["No Soda user found with email: bob@corp.com"]
        matchedIds := ["su-alice"]
        missingEmails := ["bob@corp.com"]
        pushed := some [("user", "su-alice")] } := by
  rfl

theorem jsonLoads_concrete :
    jsonLoads "\x7b\"a\": [1, 2.5, true, null]\x7d" =
      some (JVal.jobj [("a", JVal.jarr
        [JVal.jint 1, JVal.jnum { mant := 25, scale := 1 }, JVal.jbool true,
          JVal.jnull])]) ∧
    jsonLoads "[1, 2,]" = none ∧
    jsonLoads "01" = none := by
  refine ⟨rfl, rfl, rfl⟩

end SodaCollibra
